import Mathlib

/- Verification development for the narrow compiler and pagination engine
   in zerver/lib/narrow.py.  The Python code is modelled by a shallow
   embedding: SQLAlchemy Select values become predicates over message rows,
   external collaborators (channel/user lookup, mute predicates, search
   backends) become fields of an explicit environment, and raised
   exceptions become values of an error type threaded through Except. -/

set_option maxRecDepth 4000
set_option linter.unusedVariables false
set_option linter.unreachableTactic false
set_option linter.unusedTactic false

/- Sentinel anchor value LARGER_THAN_MAX_MESSAGE_ID from narrow.py. -/
def LARGER_THAN_MAX_MESSAGE_ID : Int := 10000000000000000

/- Errors raised by narrow.py.  BadNarrowOperatorError and
   InvalidOperatorCombinationError carry a desc string; the desc strings of
   the model are fixed literals (the Python code interpolates the offending
   operand into some of them, which does not affect any property proved
   here).  The desc of the channel/DM mutual-exclusion failure is kept
   verbatim because claims distinguish that raise site.  Failed Python
   assert statements are modelled as the distinguished error
   assertionFailed.  The two JsonableError raises of parse_anchor_value are
   modelled as missingAnchor and invalidAnchor. -/
inductive NarrowError where
  | badNarrowOperator (desc : String)
  | invalidOperatorCombination (desc : String)
  | assertionFailed
  | missingAnchor
  | invalidAnchor
deriving DecidableEq, Repr

/- ---------------------------------------------------------------------
   Anchor parsing (parse_anchor_value).
   --------------------------------------------------------------------- -/

/- Parse a run of ASCII digits, accumulating a Nat; any non-digit fails.
   Models the digit portion of a Python int(...) conversion. -/
def parseDigitsAux : List Char → Nat → Option Nat
  | [], acc => some acc
  | c :: cs, acc =>
      if c.isDigit then parseDigitsAux cs (acc * 10 + (c.toNat - 48)) else none

/- Model of Python int(str): an optional single sign followed by at least
   one digit.  (Python also tolerates surrounding whitespace and embedded
   underscores; those inputs are outside the model.) -/
def pyInt (s : String) : Option Int :=
  match s.data with
  | [] => none
  | '-' :: rest =>
      match rest with
      | [] => none
      | _ => (parseDigitsAux rest 0).map (fun n => -(n : Int))
  | '+' :: rest =>
      match rest with
      | [] => none
      | _ => (parseDigitsAux rest 0).map (fun n => (n : Int))
  | l => (parseDigitsAux l 0).map (fun n => (n : Int))

/- The string-valued part of parse_anchor_value: keyword sentinels, then
   the int conversion with clamping, else the invalid-anchor error. -/
def parseAnchorString (s : String) : Except NarrowError (Option Int) :=
  if s = "oldest" then .ok (some 0)
  else if s = "newest" then .ok (some LARGER_THAN_MAX_MESSAGE_ID)
  else if s = "first_unread" then .ok none
  else
    match pyInt s with
    | some anchor =>
        if anchor < 0 then .ok (some 0)
        else if anchor > LARGER_THAN_MAX_MESSAGE_ID then
          .ok (some LARGER_THAN_MAX_MESSAGE_ID)
        else .ok (some anchor)
    | none => .error .invalidAnchor

/- parse_anchor_value from narrow.py. -/
def parse_anchor_value (anchor_val : Option String) (use_first_unread_anchor : Bool) :
    Except NarrowError (Option Int) :=
  if use_first_unread_anchor then .ok none
  else
    match anchor_val with
    | none => .error .missingAnchor
    | some s => parseAnchorString s

/- ---------------------------------------------------------------------
   Window fetch plan (limit_query_to_range) and post-processing
   (post_process_limited_query).  A fetched row is represented by its
   message id (the code only ever inspects row[0]); the base relation is
   represented by the ascending list of ids of its matching rows, so an
   ORDER BY ... LIMIT fetch is a filter/reverse/take over that list.
   --------------------------------------------------------------------- -/

structure LimitedMessages where
  rows : List Int
  found_anchor : Bool
  found_newest : Bool
  found_oldest : Bool
  history_limited : Bool
deriving DecidableEq, Repr

/- Python's rows[-n:] for n > 0: the last n entries. -/
def lastN (n : Nat) (l : List Int) : List Int := l.drop (l.length - n)

/- The visibility floor applied at the start of post_process_limited_query. -/
def visible_rows_of (rows : List Int) (first_visible_message_id : Int) : List Int :=
  if first_visible_message_id > 0 then
    rows.filter (fun r => decide (r ≥ first_visible_message_id))
  else rows

/- post_process_limited_query from narrow.py.  Mirrors the Python
   statement for statement: the visibility floor, the anchored-to-right
   degenerate classification, the truncations guarded by Python's
   truthiness tests (num_before / the reassigned num_after), and the
   metadata computations. -/
def post_process_limited_query (rows : List Int) (num_before num_after : Nat) (anchor : Int)
    (anchored_to_left anchored_to_right : Bool) (first_visible_message_id : Int) :
    LimitedMessages :=
  let visible_rows := visible_rows_of rows first_visible_message_id
  let rows_limited : Bool := visible_rows.length != rows.length
  let num_after' := if anchored_to_right then 0 else num_after
  let before_rows0 :=
    if anchored_to_right then visible_rows
    else visible_rows.filter (fun r => decide (r < anchor))
  let anchor_rows :=
    if anchored_to_right then [] else visible_rows.filter (fun r => decide (r = anchor))
  let after_rows0 :=
    if anchored_to_right then [] else visible_rows.filter (fun r => decide (r > anchor))
  let before_rows := if num_before ≠ 0 then lastN num_before before_rows0 else before_rows0
  let after_rows := if num_after' ≠ 0 then after_rows0.take num_after' else after_rows0
  let limited_rows := before_rows ++ anchor_rows ++ after_rows
  let found_anchor : Bool := anchor_rows.length == 1
  let found_oldest : Bool := anchored_to_left || decide (before_rows.length < num_before)
  let found_newest : Bool := anchored_to_right || decide (after_rows.length < num_after')
  let history_limited : Bool := rows_limited && found_oldest
  ⟨limited_rows, found_anchor, found_newest, found_oldest, history_limited⟩

/- limit_query_to_range from narrow.py, over the list-of-ids relation
   model.  The before fetch is ORDER BY id DESC LIMIT before_limit, the
   after fetch is ORDER BY id ASC LIMIT after_limit, and union_all is
   concatenation. -/
def limit_query_to_range (rel : List Int) (num_before num_after : Nat) (anchor : Int)
    (include_anchor : Bool) (anchored_to_left anchored_to_right : Bool)
    (first_visible_message_id : Int) : List Int :=
  let need_before_query : Bool := !anchored_to_left && decide (num_before > 0)
  let need_after_query : Bool := !anchored_to_right && decide (num_after > 0)
  let need_both_sides : Bool := need_before_query && need_after_query
  let before_anchor : Int :=
    if need_both_sides then anchor - 1
    else anchor - (if include_anchor then 0 else 1)
  let after_anchor : Int :=
    if need_both_sides then max anchor first_visible_message_id
    else max (anchor + (if include_anchor then 0 else 1)) first_visible_message_id
  let before_limit : Nat :=
    if need_both_sides then num_before
    else num_before + (if !anchored_to_right && include_anchor then 1 else 0)
  let after_limit : Nat :=
    if need_both_sides then num_after + 1
    else num_after + (if include_anchor then 1 else 0)
  let before_query :=
    ((if anchored_to_right then rel
      else rel.filter (fun r => decide (r ≤ before_anchor))).reverse).take before_limit
  let after_query :=
    (if anchored_to_left then rel
     else rel.filter (fun r => decide (r ≥ after_anchor))).take after_limit
  if need_both_sides then before_query ++ after_query
  else if need_before_query then before_query
  else if need_after_query then after_query
  else rel.filter (fun r => decide (r = anchor))

/- Ascending insertion sort, modelling the ORDER BY message_id ASC that
   fetch_messages wraps around the unioned window subquery. -/
def insertAsc (x : Int) : List Int → List Int
  | [] => [x]
  | y :: ys => if x ≤ y then x :: y :: ys else y :: insertAsc x ys

def sortAsc (l : List Int) : List Int := l.foldr insertAsc []

/- The anchor-driven window of fetch_messages: derive anchored_to_left and
   anchored_to_right from the anchor, force num_after to 0 when anchored to
   the right, run the window fetch plan, sort ascending, and post-process. -/
def fetch_messages_window (rel : List Int) (num_before num_after : Nat) (anchor : Int)
    (include_anchor : Bool) (first_visible_message_id : Int) : LimitedMessages :=
  let anchored_to_left : Bool := decide (anchor = 0)
  let anchored_to_right : Bool := decide (anchor ≥ LARGER_THAN_MAX_MESSAGE_ID)
  let num_after' := if anchored_to_right then 0 else num_after
  let fetched := sortAsc (limit_query_to_range rel num_before num_after' anchor
    include_anchor anchored_to_left anchored_to_right first_visible_message_id)
  post_process_limited_query fetched num_before num_after' anchor
    anchored_to_left anchored_to_right first_visible_message_id

/- ---------------------------------------------------------------------
   Helper lemmas about the truncations of post_process_limited_query.
   --------------------------------------------------------------------- -/

/- Python truncates before_rows only when num_before is truthy, but the
   resulting length comparison agrees with comparing the untruncated
   partition length. -/
theorem trunc_last_lt_iff (n : Nat) (l : List Int) :
    (if n ≠ 0 then lastN n l else l).length < n ↔ l.length < n := by
  by_cases h : n = 0
  · simp [h]
  · simp only [h, ne_eq, not_false_iff, if_true, lastN, List.length_drop]
    omega

theorem trunc_take_lt_iff (n : Nat) (l : List Int) :
    (if n ≠ 0 then l.take n else l).length < n ↔ l.length < n := by
  by_cases h : n = 0
  · simp [h]
  · simp only [h, ne_eq, not_false_iff, if_true, List.length_take]
    omega

/- Concatenating the truncated before-partition, the anchor-equal rows and
   the truncated after-partition of a sorted list is sorted. -/
theorem sorted_concat_parts (v : List Int) (anchor : Int) (nb na : Nat)
    (hv : List.Sorted (· < ·) v) :
    List.Sorted (· < ·)
      ((if nb ≠ 0 then lastN nb (v.filter (fun r => decide (r < anchor)))
        else v.filter (fun r => decide (r < anchor)))
       ++ v.filter (fun r => decide (r = anchor))
       ++ (if na ≠ 0 then (v.filter (fun r => decide (r > anchor))).take na
           else v.filter (fun r => decide (r > anchor)))) := by
  have hB : List.Sorted (· < ·) (v.filter (fun r => decide (r < anchor))) :=
    hv.sublist (List.filter_sublist v)
  have hA : List.Sorted (· < ·) (v.filter (fun r => decide (r = anchor))) :=
    hv.sublist (List.filter_sublist v)
  have hF : List.Sorted (· < ·) (v.filter (fun r => decide (r > anchor))) :=
    hv.sublist (List.filter_sublist v)
  have hB' : List.Sorted (· < ·)
      (if nb ≠ 0 then lastN nb (v.filter (fun r => decide (r < anchor)))
       else v.filter (fun r => decide (r < anchor))) := by
    split
    · exact hB.sublist (List.drop_sublist _ _)
    · exact hB
  have hF' : List.Sorted (· < ·)
      (if na ≠ 0 then (v.filter (fun r => decide (r > anchor))).take na
       else v.filter (fun r => decide (r > anchor))) := by
    split
    · exact hF.sublist (List.take_sublist _ _)
    · exact hF
  have hBmem : ∀ x ∈ (if nb ≠ 0 then lastN nb (v.filter (fun r => decide (r < anchor)))
      else v.filter (fun r => decide (r < anchor))), x < anchor := by
    intro x hx
    have hx' : x ∈ v.filter (fun r => decide (r < anchor)) := by
      revert hx; split
      · intro hx; exact List.mem_of_mem_drop hx
      · intro hx; exact hx
    have := (List.mem_filter.mp hx').2
    simpa using this
  have hAmem : ∀ x ∈ v.filter (fun r => decide (r = anchor)), x = anchor := by
    intro x hx
    have := (List.mem_filter.mp hx).2
    simpa using this
  have hFmem : ∀ x ∈ (if na ≠ 0 then (v.filter (fun r => decide (r > anchor))).take na
      else v.filter (fun r => decide (r > anchor))), anchor < x := by
    intro x hx
    have hx' : x ∈ v.filter (fun r => decide (r > anchor)) := by
      revert hx; split
      · intro hx; exact List.mem_of_mem_take hx
      · intro hx; exact hx
    have := (List.mem_filter.mp hx').2
    simpa using this
  refine (List.pairwise_append).mpr ⟨(List.pairwise_append).mpr ⟨hB', hA, ?_⟩, hF', ?_⟩
  · intro a ha b hb
    have h1 := hBmem a ha
    have h2 := hAmem b hb
    omega
  · intro a ha b hb
    have h2 := hFmem b hb
    rcases List.mem_append.mp ha with h | h
    · have h1 := hBmem a h; omega
    · have h1 := hAmem a h; omega

/- ---------------------------------------------------------------------
   Claims C5 to C9.
   --------------------------------------------------------------------- -/

/-- Claim C5: with matching rows at ids 10,20,30,40,50, anchor 30,
num_before 1, num_after 1, include_anchor true, not anchored to either
end and visibility floor 0, the window fetch followed by post-processing
returns exactly rows 20,30,40 in ascending order with found_anchor true
and found_oldest and found_newest false. -/
theorem c5_pagination_exactness :
    fetch_messages_window [10, 20, 30, 40, 50] 1 1 30 true 0 =
      ⟨[20, 30, 40], true, false, false, false⟩ := by decide

/-- Claim C6 counterexample: the claim states that with num_before = 0 the
before-partition must become empty, but post_process_limited_query skips
the truncation entirely when num_before is 0 (Python falsy), so a before
row survives: with rows = [10], num_before = num_after = 0, anchor = 30,
not anchored either side and no visibility floor, the returned row list is
[10], not the empty list the claim requires. -/
theorem c6_counterexample :
    (post_process_limited_query [10] 0 0 30 false false 0).rows = [10] ∧
    ([10] : List Int) ≠ [] := by decide

/-- Claim C6 as amended: for sorted fetched rows and a fetch not anchored
to the right, post_process_limited_query returns the before-partition
truncated to its last num_before entries when num_before > 0 (left
untruncated when num_before = 0), then the anchor-equal rows, then the
after-partition truncated to its first num_after entries when
num_after > 0 (left untruncated when num_after = 0), concatenated in
ascending id order. -/
theorem c6_amended (rows : List Int) (num_before num_after : Nat) (anchor : Int)
    (anchored_to_left : Bool) (fv : Int) (hs : List.Sorted (· < ·) rows) :
    (post_process_limited_query rows num_before num_after anchor anchored_to_left false fv).rows =
      ((if num_before ≠ 0 then
          lastN num_before ((visible_rows_of rows fv).filter (fun r => decide (r < anchor)))
        else (visible_rows_of rows fv).filter (fun r => decide (r < anchor)))
       ++ (visible_rows_of rows fv).filter (fun r => decide (r = anchor))
       ++ (if num_after ≠ 0 then
            ((visible_rows_of rows fv).filter (fun r => decide (r > anchor))).take num_after
          else (visible_rows_of rows fv).filter (fun r => decide (r > anchor)))) ∧
    List.Sorted (· < ·)
      (post_process_limited_query rows num_before num_after anchor anchored_to_left false fv).rows := by
  have hsv : List.Sorted (· < ·) (visible_rows_of rows fv) := by
    unfold visible_rows_of; split
    · exact hs.sublist (List.filter_sublist rows)
    · exact hs
  have hrows :
      (post_process_limited_query rows num_before num_after anchor anchored_to_left false fv).rows =
      ((if num_before ≠ 0 then
          lastN num_before ((visible_rows_of rows fv).filter (fun r => decide (r < anchor)))
        else (visible_rows_of rows fv).filter (fun r => decide (r < anchor)))
       ++ (visible_rows_of rows fv).filter (fun r => decide (r = anchor))
       ++ (if num_after ≠ 0 then
            ((visible_rows_of rows fv).filter (fun r => decide (r > anchor))).take num_after
          else (visible_rows_of rows fv).filter (fun r => decide (r > anchor)))) := by
    simp [post_process_limited_query]
  refine ⟨hrows, ?_⟩
  rw [hrows]
  exact sorted_concat_parts (visible_rows_of rows fv) anchor num_before num_after hsv

/-- Claim C6 amendment witness: the amended statement evaluated at the
concrete scenario of claim C5. -/
theorem c6_amended_witness :
    (post_process_limited_query [20, 30, 40] 1 1 30 false false 0).rows =
      ((if (1 : Nat) ≠ 0 then
          lastN 1 ((visible_rows_of [20, 30, 40] 0).filter (fun r => decide (r < 30)))
        else (visible_rows_of [20, 30, 40] 0).filter (fun r => decide (r < 30)))
       ++ (visible_rows_of [20, 30, 40] 0).filter (fun r => decide (r = 30))
       ++ (if (1 : Nat) ≠ 0 then
            ((visible_rows_of [20, 30, 40] 0).filter (fun r => decide (r > 30))).take 1
          else (visible_rows_of [20, 30, 40] 0).filter (fun r => decide (r > 30)))) ∧
    List.Sorted (· < ·) (post_process_limited_query [20, 30, 40] 1 1 30 false false 0).rows :=
  c6_amended [20, 30, 40] 1 1 30 false 0 (by decide)

/-- Claim C7 counterexample: the claim requires found_anchor to be true
whenever exactly one row with id equal to the anchor survives the
visibility floor, but in the anchored-to-right degenerate case the code
classifies every row as before the anchor and always reports found_anchor
false, even when a surviving row equals the anchor. -/
theorem c7_counterexample :
    (post_process_limited_query [LARGER_THAN_MAX_MESSAGE_ID] 0 0 LARGER_THAN_MAX_MESSAGE_ID
      false true 0).found_anchor = false ∧
    (([LARGER_THAN_MAX_MESSAGE_ID] : List Int).filter
      (fun r => decide (r = LARGER_THAN_MAX_MESSAGE_ID))).length = 1 := by decide

/-- Claim C7 as amended: found_anchor is true iff the fetch is not
anchored to the right and exactly one visible row equals the anchor (when
anchored to the right, no row is classified anchor-equal, so found_anchor
is always false); found_oldest is true iff anchored to the left or the
before-partition as classified (all visible rows when anchored to the
right) held fewer rows than num_before requested; found_newest is true iff
anchored to the right or the after-partition held fewer rows than
num_after requested. -/
theorem c7_amended (rows : List Int) (num_before num_after : Nat) (anchor : Int)
    (anchored_to_left anchored_to_right : Bool) (fv : Int) :
    ((post_process_limited_query rows num_before num_after anchor anchored_to_left
        anchored_to_right fv).found_anchor
      = (!anchored_to_right &&
          ((((visible_rows_of rows fv).filter (fun r => decide (r = anchor))).length == 1)))) ∧
    ((post_process_limited_query rows num_before num_after anchor anchored_to_left
        anchored_to_right fv).found_oldest
      = (anchored_to_left || decide ((if anchored_to_right then visible_rows_of rows fv
          else (visible_rows_of rows fv).filter (fun r => decide (r < anchor))).length
            < num_before))) ∧
    ((post_process_limited_query rows num_before num_after anchor anchored_to_left
        anchored_to_right fv).found_newest
      = (anchored_to_right || decide (((visible_rows_of rows fv).filter
          (fun r => decide (r > anchor))).length < num_after))) := by
  cases anchored_to_right with
  | false =>
    refine ⟨by simp [post_process_limited_query], ?_, ?_⟩
    · cases anchored_to_left with
      | false =>
        simp only [post_process_limited_query, Bool.false_eq_true, if_false, Bool.false_or]
        rw [decide_eq_decide]
        exact trunc_last_lt_iff num_before _
      | true => simp [post_process_limited_query]
    · simp only [post_process_limited_query, Bool.false_eq_true, if_false, Bool.false_or]
      rw [decide_eq_decide]
      exact trunc_take_lt_iff num_after _
  | true =>
    refine ⟨by simp [post_process_limited_query], ?_, by simp [post_process_limited_query]⟩
    cases anchored_to_left with
    | false =>
      simp only [post_process_limited_query, eq_self_iff_true, if_true, Bool.false_or]
      rw [decide_eq_decide]
      exact trunc_last_lt_iff num_before _
    | true => simp [post_process_limited_query]

/-- Claim C8: an anchor at or above LARGER_THAN_MAX_MESSAGE_ID makes the
fetch behave exactly as if num_after were 0, classifies every surviving
row into the before-partition (so no anchor-equal or after rows, and
found_anchor is false), and always reports found_newest true. -/
theorem c8_right_anchored (rel : List Int) (num_before num_after : Nat) (anchor : Int)
    (include_anchor : Bool) (fv : Int) (h : anchor ≥ LARGER_THAN_MAX_MESSAGE_ID) :
    fetch_messages_window rel num_before num_after anchor include_anchor fv =
      fetch_messages_window rel num_before 0 anchor include_anchor fv ∧
    (fetch_messages_window rel num_before num_after anchor include_anchor fv).found_newest
      = true ∧
    (fetch_messages_window rel num_before num_after anchor include_anchor fv).found_anchor
      = false ∧
    (fetch_messages_window rel num_before num_after anchor include_anchor fv).rows =
      (if num_before ≠ 0 then
        lastN num_before (visible_rows_of (sortAsc (limit_query_to_range rel num_before 0 anchor
          include_anchor (decide (anchor = 0)) true fv)) fv)
       else visible_rows_of (sortAsc (limit_query_to_range rel num_before 0 anchor
          include_anchor (decide (anchor = 0)) true fv)) fv) := by
  have hd : decide (anchor ≥ LARGER_THAN_MAX_MESSAGE_ID) = true := decide_eq_true h
  refine ⟨?_, ?_, ?_, ?_⟩ <;>
    simp [fetch_messages_window, hd, post_process_limited_query]

/-- Claim C8 witness: the right-anchored theorem applied at a concrete
relation with anchor equal to the sentinel. -/
theorem c8_witness :
    (fetch_messages_window [5] 1 2 LARGER_THAN_MAX_MESSAGE_ID true 0).found_newest = true :=
  (c8_right_anchored [5] 1 2 LARGER_THAN_MAX_MESSAGE_ID true 0 (by decide)).2.1

/-- Claim C9: parse_anchor_value maps "oldest" to 0, "newest" to
LARGER_THAN_MAX_MESSAGE_ID, "first_unread" to null, returns null whenever
use_first_unread_anchor is set regardless of the anchor string, clamps
every numeric string into [0, LARGER_THAN_MAX_MESSAGE_ID], raises the
missing-anchor error when the anchor is absent and use_first_unread_anchor
is false, and raises the invalid-anchor error on every non-numeric
non-keyword string. -/
theorem c9_parse_anchor :
    parse_anchor_value (some "oldest") false = .ok (some 0) ∧
    parse_anchor_value (some "newest") false = .ok (some LARGER_THAN_MAX_MESSAGE_ID) ∧
    parse_anchor_value (some "first_unread") false = .ok none ∧
    (∀ v : Option String, parse_anchor_value v true = .ok none) ∧
    (∀ (s : String) (n : Int), pyInt s = some n →
      parse_anchor_value (some s) false =
        .ok (some (max 0 (min n LARGER_THAN_MAX_MESSAGE_ID)))) ∧
    parse_anchor_value none false = .error .missingAnchor ∧
    (∀ s : String, pyInt s = none → s ≠ "oldest" → s ≠ "newest" → s ≠ "first_unread" →
      parse_anchor_value (some s) false = .error .invalidAnchor) := by
  refine ⟨rfl, rfl, rfl, fun v => rfl, ?_, rfl, ?_⟩
  · intro s n hn
    have h1 : s ≠ "oldest" := by
      intro hcontra; subst hcontra
      rw [show pyInt "oldest" = none from by decide] at hn; cases hn
    have h2 : s ≠ "newest" := by
      intro hcontra; subst hcontra
      rw [show pyInt "newest" = none from by decide] at hn; cases hn
    have h3 : s ≠ "first_unread" := by
      intro hcontra; subst hcontra
      rw [show pyInt "first_unread" = none from by decide] at hn; cases hn
    show parseAnchorString s = _
    unfold parseAnchorString
    rw [if_neg h1, if_neg h2, if_neg h3, hn]
    show (if n < 0 then (Except.ok (some 0) : Except NarrowError (Option Int))
      else if n > LARGER_THAN_MAX_MESSAGE_ID then Except.ok (some LARGER_THAN_MAX_MESSAGE_ID)
      else Except.ok (some n)) = _
    by_cases hlt : n < 0
    · rw [if_pos hlt]
      have hm : max 0 (min n LARGER_THAN_MAX_MESSAGE_ID) = 0 := by
        unfold LARGER_THAN_MAX_MESSAGE_ID at *; omega
      rw [hm]
    · rw [if_neg hlt]
      by_cases hgt : n > LARGER_THAN_MAX_MESSAGE_ID
      · rw [if_pos hgt]
        have hm : max 0 (min n LARGER_THAN_MAX_MESSAGE_ID) = LARGER_THAN_MAX_MESSAGE_ID := by
          unfold LARGER_THAN_MAX_MESSAGE_ID at *; omega
        rw [hm]
      · rw [if_neg hgt]
        have hm : max 0 (min n LARGER_THAN_MAX_MESSAGE_ID) = n := by
          unfold LARGER_THAN_MAX_MESSAGE_ID at *; omega
        rw [hm]
  · intro s hn h1 h2 h3
    show parseAnchorString s = _
    unfold parseAnchorString
    rw [if_neg h1, if_neg h2, if_neg h3, hn]

/-- Claim C9 witness: the numeric clamping clause applied at the string
"-5", which parses to -5 and clamps to 0. -/
theorem c9_witness :
    parse_anchor_value (some "-5") false =
      .ok (some (max 0 (min (-5) LARGER_THAN_MAX_MESSAGE_ID))) :=
  c9_parse_anchor.2.2.2.2.1 "-5" (-5) (by decide)

/- ---------------------------------------------------------------------
   Narrow term model (NarrowParameter) and the message-row relation.
   --------------------------------------------------------------------- -/

/- Operand values surviving NarrowParameter validation: a string, an
   integer, or a list of integers. -/
inductive Operand where
  | str (s : String)
  | int (n : Int)
  | intList (l : List Int)
deriving DecidableEq, Repr

structure NarrowParameter where
  operator : String
  operand : Operand
  negated : Bool
deriving DecidableEq, Repr

/- Python str() of an operand, used where the code treats an operand as a
   string without an isinstance dispatch. -/
def operandStr : Operand → String
  | .str s => s
  | .int n => toString n
  | .intList l => toString l

/- A message row joined (when applicable) with the requesting user's
   UserMessage row: the columns the compiled predicates inspect. -/
structure MessageRow where
  id : Int
  realm_id : Int
  sender_id : Int
  recipient_id : Int
  flags : Nat
  topic : String
  content : String
  has_attachment : Bool
  has_image : Bool
  has_link : Bool
  is_channel_message : Bool

/- The result set of a SQLAlchemy Select, as a Boolean membership
   predicate over message rows.  query.where(cond) intersects with cond;
   query.add_columns only widens the selected columns and never changes
   which rows are in the result set, so it is the identity here. -/
abbrev Query := MessageRow → Bool

def queryWhere (q : Query) (c : MessageRow → Bool) : Query := fun r => q r && c r

structure UserInfo where
  id : Int
  recipient_id : Int
deriving DecidableEq, Repr

structure ChannelInfo where
  name : String
  recipient_id : Option Int
  is_web_public : Bool
  is_public : Bool
deriving DecidableEq, Repr

/- The UserMessage.flags bitmask constants (external to narrow.py). -/
structure FlagMasks where
  read : Nat
  starred : Nat
  mentioned : Nat
  stream_wildcard_mentioned : Nat
  topic_wildcard_mentioned : Nat
  group_mentioned : Nat
  has_alert_word : Nat
  is_private : Nat

/- Outcome of the user/recipient resolution inside by_dm:
   unknownUser models the JsonableError/ValidationError branch,
   emptyProfiles the user_profiles == [] early return, noGroup the
   DirectMessageGroup.DoesNotExist branch, and resolved carries whether
   the recipient is a direct-message group, its recipient id, and the
   other 1:1 participant when there is one. -/
inductive DmLookup where
  | unknownUser
  | emptyProfiles
  | noGroup
  | resolved (isGroup : Bool) (recipientId : Int) (otherParticipant : Option UserInfo)

/- External collaborators of the condition compiler, specified at their
   interface (channel/user lookup, mute predicates, topic matching, the
   reactions relation, the two search backends, configuration constants).
   The Zephyr mirror-realm channel-name equivalence class is folded into
   zephyrChannelRecipientIds (the recipient ids of active channels whose
   names match the derived pattern family for the given channel name). -/
structure Env where
  masks : FlagMasks
  muteConds : List (MessageRow → Bool)
  resolvedTopicCond : MessageRow → Bool
  followedTopicCond : Int → MessageRow → Bool
  hasReaction : Int → Bool
  getChannel : Operand → Option ChannelInfo
  zephyrChannelRecipientIds : String → List Int
  publicChannelRecipientIds : List Int
  webPublicChannelRecipientIds : List Int
  topicMatch : String → MessageRow → Bool
  getUser : Operand → Option UserInfo
  resolveDm : Operand → DmLookup
  sharedGroupRecipientIds : Int → List Int
  maxMessageId : Int
  usingPgroonga : Bool
  pgroongaMatch : String → MessageRow → Bool
  tsMatch : String → MessageRow → Bool
  containsCI : String → String → Bool

/- The per-request configuration of NarrowBuilder. -/
structure NarrowBuilder where
  env : Env
  user_profile : Option UserInfo
  realm_id : Int
  is_zephyr_mirror_realm : Bool
  is_web_public_query : Bool

/- The mutable marker state of NarrowBuilder. -/
structure BuilderState where
  is_channel_narrow : Bool
  is_dm_narrow : Bool
deriving DecidableEq, Repr

/- The negation transform of add_term: Python's maybe_negate, with the
   identity-versus-not_ comparison replaced by the Boolean negated. -/
def maybe_negate (negated : Bool) (c : MessageRow → Bool) : MessageRow → Bool :=
  if negated then fun r => !(c r) else c

def comboErrDesc : String := "No message can be both a channel message and direct message"

/- check_not_both_channel_and_dm_narrow: no-op for a negated transform;
   otherwise sets the requested markers and raises BadNarrowOperatorError
   (note: not InvalidOperatorCombinationError) when both end up set. -/
def check_not_both_channel_and_dm_narrow (st : BuilderState) (negated : Bool)
    (is_dm_narrow : Bool) (is_channel_narrow : Bool) : Except NarrowError BuilderState :=
  if negated then .ok st
  else
    if (st.is_channel_narrow || is_channel_narrow) && (st.is_dm_narrow || is_dm_narrow) then
      .error (.badNarrowOperator comboErrDesc)
    else .ok ⟨st.is_channel_narrow || is_channel_narrow, st.is_dm_narrow || is_dm_narrow⟩

def andConds (conds : List (MessageRow → Bool)) : MessageRow → Bool :=
  fun r => conds.all (fun c => c r)

/- ---------------------------------------------------------------------
   The by_* operator handlers of NarrowBuilder.  Each takes the builder
   configuration, the marker state, the query so far, the operand and the
   negation flag, and returns the new state and query or the raised error.
   The desc strings of errors are fixed literals (Python interpolates the
   operand).  Python assert failures are the assertionFailed error.
   --------------------------------------------------------------------- -/

def by_has (nb : NarrowBuilder) (st : BuilderState) (q : Query) (operand : Operand)
    (negated : Bool) : Except NarrowError (BuilderState × Query) :=
  match operand with
  | .str "attachment" =>
      .ok (st, queryWhere q (maybe_negate negated (fun r => r.has_attachment)))
  | .str "image" => .ok (st, queryWhere q (maybe_negate negated (fun r => r.has_image)))
  | .str "link" => .ok (st, queryWhere q (maybe_negate negated (fun r => r.has_link)))
  | .str "reaction" =>
      .ok (st, queryWhere q (maybe_negate negated (fun r => nb.env.hasReaction r.id)))
  | _ => .error (.badNarrowOperator "unknown has operand")

def by_in (nb : NarrowBuilder) (st : BuilderState) (q : Query) (operand : Operand)
    (negated : Bool) : Except NarrowError (BuilderState × Query) :=
  if nb.is_web_public_query then .error .assertionFailed
  else if nb.user_profile.isNone then .error .assertionFailed
  else
    match operand with
    | .str "home" =>
        if nb.env.muteConds.isEmpty then
          .ok (st, queryWhere q (maybe_negate negated (fun _ => true)))
        else .ok (st, queryWhere q (maybe_negate negated (andConds nb.env.muteConds)))
    | .str "all" => .ok (st, q)
    | _ => .error (.badNarrowOperator "unknown in operand")

/- by_is.  The dm/private arm reproduces the negation quirk of the Python
   code: a negated is:dm calls the mutual-exclusion check with a
   non-negated transform and is_channel_narrow=True, so it does set the
   channel marker and can raise the combination error. -/
def by_is (nb : NarrowBuilder) (st : BuilderState) (q : Query) (operand : Operand)
    (negated : Bool) : Except NarrowError (BuilderState × Query) :=
  if operand = Operand.str "resolved" then
    .ok (st, queryWhere q (maybe_negate negated nb.env.resolvedTopicCond))
  else if nb.is_web_public_query then .error .assertionFailed
  else
    match nb.user_profile with
    | none => .error .assertionFailed
    | some self =>
        if operand = Operand.str "dm" ∨ operand = Operand.str "private" then
          match (if negated then check_not_both_channel_and_dm_narrow st false false true
                 else check_not_both_channel_and_dm_narrow st false true false) with
          | .error e => .error e
          | .ok st' =>
              .ok (st', queryWhere q (maybe_negate negated
                (fun r => (r.flags &&& nb.env.masks.is_private) != 0)))
        else if operand = Operand.str "starred" then
          .ok (st, queryWhere q (maybe_negate negated
            (fun r => (r.flags &&& nb.env.masks.starred) != 0)))
        else if operand = Operand.str "unread" then
          .ok (st, queryWhere q (maybe_negate negated
            (fun r => (r.flags &&& nb.env.masks.read) == 0)))
        else if operand = Operand.str "mentioned" then
          .ok (st, queryWhere q (maybe_negate negated
            (fun r => (r.flags &&& (nb.env.masks.mentioned |||
              nb.env.masks.stream_wildcard_mentioned |||
              nb.env.masks.topic_wildcard_mentioned |||
              nb.env.masks.group_mentioned)) != 0)))
        else if operand = Operand.str "alerted" then
          .ok (st, queryWhere q (maybe_negate negated
            (fun r => (r.flags &&& nb.env.masks.has_alert_word) != 0)))
        else if operand = Operand.str "followed" then
          .ok (st, queryWhere q (maybe_negate negated (nb.env.followedTopicCond self.id)))
        else if operand = Operand.str "muted" then
          if nb.env.muteConds.isEmpty then
            .ok (st, queryWhere q (maybe_negate negated (fun _ => false)))
          else
            .ok (st, queryWhere q (maybe_negate negated
              (fun r => !(andConds nb.env.muteConds r))))
        else .error (.badNarrowOperator "unknown is operand")

def by_channel (nb : NarrowBuilder) (st : BuilderState) (q : Query) (operand : Operand)
    (negated : Bool) : Except NarrowError (BuilderState × Query) :=
  match check_not_both_channel_and_dm_narrow st negated false true with
  | .error e => .error e
  | .ok st' =>
      match nb.env.getChannel operand with
      | none => .error (.badNarrowOperator "unknown channel")
      | some channel =>
          if nb.is_web_public_query && !channel.is_web_public then
            .error (.badNarrowOperator "unknown web-public channel")
          else if nb.is_zephyr_mirror_realm then
            if channel.is_public then .error .assertionFailed
            else
              .ok (st', queryWhere q (maybe_negate negated
                (fun r => (nb.env.zephyrChannelRecipientIds channel.name).contains
                  r.recipient_id)))
          else
            match channel.recipient_id with
            | none => .error .assertionFailed
            | some rid =>
                .ok (st', queryWhere q (maybe_negate negated
                  (fun r => r.recipient_id == rid)))

def by_channels (nb : NarrowBuilder) (st : BuilderState) (q : Query) (operand : Operand)
    (negated : Bool) : Except NarrowError (BuilderState × Query) :=
  match check_not_both_channel_and_dm_narrow st negated false true with
  | .error e => .error e
  | .ok st' =>
      match operand with
      | .str "public" =>
          .ok (st', queryWhere q (maybe_negate negated
            (fun r => nb.env.publicChannelRecipientIds.contains r.recipient_id)))
      | .str "web-public" =>
          .ok (st', queryWhere q (maybe_negate negated
            (fun r => nb.env.webPublicChannelRecipientIds.contains r.recipient_id)))
      | _ => .error (.badNarrowOperator "unknown channels operand")

/- Strip the trailing (?:\.d)* family from a Zephyr topic, matching the
   case-insensitive regex by accepting both '.d' and '.D'. -/
def stripDotDRev : List Char → List Char
  | 'd' :: '.' :: rest => stripDotDRev rest
  | 'D' :: '.' :: rest => stripDotDRev rest
  | l => l

def stripTrailingDotD (s : String) : String :=
  String.mk (stripDotDRev s.data.reverse).reverse

/- The bounded suffix family of by_topic for Zephyr mirror realms. -/
def zephyrTopicVariants (base : String) : List String :=
  if base = "" ∨ base = "personal" ∨ base = "(instance \"\")" then
    ["", ".d", ".d.d", ".d.d.d", ".d.d.d.d",
     "personal", "personal.d", "personal.d.d", "personal.d.d.d", "personal.d.d.d.d",
     "(instance \"\")", "(instance \"\").d", "(instance \"\").d.d",
     "(instance \"\").d.d.d", "(instance \"\").d.d.d.d"]
  else [base, base ++ ".d", base ++ ".d.d", base ++ ".d.d.d", base ++ ".d.d.d.d"]

def by_topic (nb : NarrowBuilder) (st : BuilderState) (q : Query) (operand : Operand)
    (negated : Bool) : Except NarrowError (BuilderState × Query) :=
  match check_not_both_channel_and_dm_narrow st negated false true with
  | .error e => .error e
  | .ok st' =>
      if nb.is_zephyr_mirror_realm then
        .ok (st', queryWhere q (maybe_negate negated
          (fun r => (zephyrTopicVariants (stripTrailingDotD (operandStr operand))).any
            (fun t => nb.env.topicMatch t r))))
      else
        .ok (st', queryWhere q (maybe_negate negated (nb.env.topicMatch (operandStr operand))))

def by_sender (nb : NarrowBuilder) (st : BuilderState) (q : Query) (operand : Operand)
    (negated : Bool) : Except NarrowError (BuilderState × Query) :=
  match nb.env.getUser operand with
  | none => .error (.badNarrowOperator "unknown user")
  | some sender =>
      .ok (st, queryWhere q (maybe_negate negated (fun r => r.sender_id == sender.id)))

def by_near (nb : NarrowBuilder) (st : BuilderState) (q : Query) (operand : Operand)
    (negated : Bool) : Except NarrowError (BuilderState × Query) :=
  .ok (st, q)

/- Python's str(operand).isdigit() plus int conversion for a string that
   is all digits. -/
def strDigits (s : String) : Option Nat :=
  if s.data.isEmpty then none else parseDigitsAux s.data 0

def by_id (nb : NarrowBuilder) (st : BuilderState) (q : Query) (operand : Operand)
    (negated : Bool) : Except NarrowError (BuilderState × Query) :=
  match operand with
  | .int n =>
      if n < 0 ∨ n > nb.env.maxMessageId then .error (.badNarrowOperator "Invalid message ID")
      else .ok (st, queryWhere q (maybe_negate negated (fun r => r.id == n)))
  | .str s =>
      match strDigits s with
      | none => .error (.badNarrowOperator "Invalid message ID")
      | some n =>
          if (n : Int) > nb.env.maxMessageId then
            .error (.badNarrowOperator "Invalid message ID")
          else .ok (st, queryWhere q (maybe_negate negated (fun r => r.id == (n : Int))))
  | .intList _ => .error (.badNarrowOperator "Invalid message ID")

def by_dm (nb : NarrowBuilder) (st : BuilderState) (q : Query) (operand : Operand)
    (negated : Bool) : Except NarrowError (BuilderState × Query) :=
  if nb.is_web_public_query then .error .assertionFailed
  else
    match nb.user_profile with
    | none => .error .assertionFailed
    | some self =>
        match check_not_both_channel_and_dm_narrow st negated true false with
        | .error e => .error e
        | .ok st' =>
            match nb.env.resolveDm operand with
            | .unknownUser => .error (.badNarrowOperator "unknown user in")
            | .emptyProfiles =>
                .ok (st', queryWhere q (maybe_negate negated (fun _ => false)))
            | .noGroup =>
                .ok (st', queryWhere q (maybe_negate negated (fun _ => false)))
            | .resolved isGroup recipientId other =>
                if isGroup then
                  .ok (st', queryWhere q (maybe_negate negated
                    (fun r => r.recipient_id == recipientId)))
                else
                  match other with
                  | some otherUser =>
                      .ok (st', queryWhere q (maybe_negate negated (fun r =>
                        ((r.flags &&& nb.env.masks.is_private) != 0) &&
                        (r.realm_id == nb.realm_id) &&
                        ((r.sender_id == otherUser.id &&
                            r.recipient_id == self.recipient_id) ||
                         (r.sender_id == self.id && r.recipient_id == recipientId)))))
                  | none =>
                      .ok (st', queryWhere q (maybe_negate negated (fun r =>
                        ((r.flags &&& nb.env.masks.is_private) != 0) &&
                        (r.realm_id == nb.realm_id) &&
                        (r.sender_id == self.id) && (r.recipient_id == recipientId))))

def by_dm_including (nb : NarrowBuilder) (st : BuilderState) (q : Query) (operand : Operand)
    (negated : Bool) : Except NarrowError (BuilderState × Query) :=
  if nb.is_web_public_query then .error .assertionFailed
  else
    match nb.user_profile with
    | none => .error .assertionFailed
    | some self =>
        match check_not_both_channel_and_dm_narrow st negated true false with
        | .error e => .error e
        | .ok st' =>
            match nb.env.getUser operand with
            | none => .error (.badNarrowOperator "unknown user")
            | some narrowUser =>
                if narrowUser.id == self.id then
                  .ok (st', queryWhere q (maybe_negate negated
                    (fun r => (r.flags &&& nb.env.masks.is_private) != 0)))
                else
                  .ok (st', queryWhere q (maybe_negate negated (fun r =>
                    ((r.flags &&& nb.env.masks.is_private) != 0) &&
                    (r.realm_id == nb.realm_id) &&
                    ((r.sender_id == narrowUser.id &&
                        r.recipient_id == self.recipient_id) ||
                     (r.sender_id == self.id &&
                        r.recipient_id == narrowUser.recipient_id) ||
                     (nb.env.sharedGroupRecipientIds narrowUser.id).contains
                        r.recipient_id))))

def by_group_pm_with (nb : NarrowBuilder) (st : BuilderState) (q : Query) (operand : Operand)
    (negated : Bool) : Except NarrowError (BuilderState × Query) :=
  if nb.is_web_public_query then .error .assertionFailed
  else
    match nb.user_profile with
    | none => .error .assertionFailed
    | some self =>
        match check_not_both_channel_and_dm_narrow st negated true false with
        | .error e => .error e
        | .ok st' =>
            match nb.env.getUser operand with
            | none => .error (.badNarrowOperator "unknown user")
            | some narrowUser =>
                .ok (st', queryWhere q (maybe_negate negated (fun r =>
                  ((r.flags &&& nb.env.masks.is_private) != 0) &&
                  (r.realm_id == nb.realm_id) &&
                  (nb.env.sharedGroupRecipientIds narrowUser.id).contains r.recipient_id)))

/- ---------------------------------------------------------------------
   The search handler.  Both backends add highlight columns (identity on
   the row set) and a match condition; the tsearch backend additionally
   adds one substring condition per quoted token of the operand, found by
   the regex "[^"]+"|\S+ scan modelled by scanTokens.
   --------------------------------------------------------------------- -/

def scanTokensFuel : Nat → List Char → List (List Char)
  | 0, _ => []
  | _ + 1, [] => []
  | fuel + 1, c :: rest =>
      if c.isWhitespace then scanTokensFuel fuel rest
      else if c = '"' then
        match rest.span (fun x => decide (x ≠ '"')) with
        | (body, '"' :: rest') =>
            if body.isEmpty then
              ((c :: rest).takeWhile (fun x => !x.isWhitespace)) ::
                scanTokensFuel fuel ((c :: rest).dropWhile (fun x => !x.isWhitespace))
            else ('"' :: (body ++ ['"'])) :: scanTokensFuel fuel rest'
        | (_, _) =>
            ((c :: rest).takeWhile (fun x => !x.isWhitespace)) ::
              scanTokensFuel fuel ((c :: rest).dropWhile (fun x => !x.isWhitespace))
      else
        ((c :: rest).takeWhile (fun x => !x.isWhitespace)) ::
          scanTokensFuel fuel ((c :: rest).dropWhile (fun x => !x.isWhitespace))

def scanTokens (l : List Char) : List (List Char) := scanTokensFuel (l.length + 1) l

/- A token that begins and ends with a double quote yields the
   case-insensitive substring condition of the quoted-phrase loop; other
   tokens yield nothing. -/
def quotedTermCond (env : Env) (tok : List Char) : Option (MessageRow → Bool) :=
  match tok with
  | [] => none
  | c :: rest =>
      if c = '"' ∧ (c :: rest).getLast (List.cons_ne_nil c rest) = '"' then
        some (fun r =>
          env.containsCI r.content (String.mk rest.dropLast) ||
          (env.containsCI r.topic (String.mk rest.dropLast) && r.is_channel_message))
      else none

def tsQuotedStep (env : Env) (negated : Bool) (q : Query) (tok : List Char) : Query :=
  match quotedTermCond env tok with
  | some c => queryWhere q (maybe_negate negated c)
  | none => q

def by_search_tsearch (nb : NarrowBuilder) (st : BuilderState) (q : Query) (operand : String)
    (negated : Bool) : Except NarrowError (BuilderState × Query) :=
  .ok (st, queryWhere ((scanTokens operand.data).foldl (tsQuotedStep nb.env negated) q)
    (maybe_negate negated (nb.env.tsMatch operand)))

def by_search (nb : NarrowBuilder) (st : BuilderState) (q : Query) (operand : Operand)
    (negated : Bool) : Except NarrowError (BuilderState × Query) :=
  if nb.env.usingPgroonga then
    .ok (st, queryWhere q (maybe_negate negated (nb.env.pgroongaMatch (operandStr operand))))
  else by_search_tsearch nb st q (operandStr operand) negated

/- The type of a by_* handler. -/
abbrev ByMethod := NarrowBuilder → BuilderState → Query → Operand → Bool →
  Except NarrowError (BuilderState × Query)

/- The by_method_map dictionary of NarrowBuilder as an association list:
   operator string to handler, with the legacy aliases of the source. -/
def by_method_list : List (String × ByMethod) :=
  [("has", by_has),
   ("in", by_in),
   ("is", by_is),
   ("channel", by_channel),
   ("stream", by_channel),
   ("channels", by_channels),
   ("streams", by_channels),
   ("topic", by_topic),
   ("sender", by_sender),
   ("near", by_near),
   ("id", by_id),
   ("search", by_search),
   ("dm", by_dm),
   ("pm-with", by_dm),
   ("dm-including", by_dm_including),
   ("group-pm-with", by_group_pm_with),
   ("pm_with", by_dm),
   ("group_pm_with", by_group_pm_with)]

def by_method_map (operator : String) : Option ByMethod :=
  (by_method_list.find? (fun p => p.1 == operator)).map Prod.snd

/- add_term: look the operator up in by_method_map and dispatch, raising
   the unknown-operator error when absent. -/
def add_term (nb : NarrowBuilder) (st : BuilderState) (q : Query) (term : NarrowParameter) :
    Except NarrowError (BuilderState × Query) :=
  match by_method_map term.operator with
  | some m => m nb st q term.operand term.negated
  | none => .error (.badNarrowOperator "unknown operator")

/- The term loop of add_narrow_conditions: non-search terms extend the
   query through add_term; search operands are collected for the combined
   search term applied after the loop. -/
def add_narrow_conditions_loop (nb : NarrowBuilder) :
    List NarrowParameter → BuilderState → Query → List String →
    Except NarrowError (BuilderState × Query × List String)
  | [], st, q, ops => .ok (st, q, ops)
  | t :: rest, st, q, ops =>
      if t.operator = "search" then
        add_narrow_conditions_loop nb rest st q (ops ++ [operandStr t.operand])
      else
        match add_term nb st q t with
        | .error e => .error e
        | .ok (st', q') => add_narrow_conditions_loop nb rest st' q' ops

/- The some-narrow branch of add_narrow_conditions: run the term loop
   from a fresh builder state, then, when search operands were collected,
   attach the highlight columns (identity on rows) and apply the single
   combined search term. -/
def add_narrow_conditions_some (nb : NarrowBuilder) (q : Query)
    (terms : List NarrowParameter) : Except NarrowError (Query × Bool × Bool) :=
  match add_narrow_conditions_loop nb terms ⟨false, false⟩ q [] with
  | .error e => .error e
  | .ok (st, q', ops) =>
      if ops.isEmpty then .ok (q', false, st.is_dm_narrow)
      else
        match add_term nb st q' ⟨"search", .str (String.intercalate " " ops), false⟩ with
        | .error e => .error e
        | .ok (st', q'') => .ok (q'', true, st'.is_dm_narrow)

/- add_narrow_conditions from narrow.py, returning the narrowed query,
   is_search, and the builder's final is_dm_narrow marker. -/
def add_narrow_conditions (nb : NarrowBuilder) (q : Query)
    (narrow : Option (List NarrowParameter)) : Except NarrowError (Query × Bool × Bool) :=
  match narrow with
  | none => .ok (q, false, false)
  | some terms => add_narrow_conditions_some nb q terms

/- ---------------------------------------------------------------------
   The narrowing invariant: no handler ever adds rows.
   --------------------------------------------------------------------- -/

theorem queryWhere_subset (q : Query) (c : MessageRow → Bool) (r : MessageRow)
    (hr : queryWhere q c r = true) : q r = true := by
  have h := hr
  unfold queryWhere at h
  exact ((Bool.and_eq_true (q r) (c r)).mp h).1

theorem foldl_tsQuotedStep_subset (env : Env) (negated : Bool) :
    ∀ (toks : List (List Char)) (q : Query) (r : MessageRow),
      (toks.foldl (tsQuotedStep env negated) q) r = true → q r = true := by
  intro toks
  induction toks with
  | nil => intro q r h; exact h
  | cons a as ih =>
      intro q r h
      have h' := ih (tsQuotedStep env negated q a) r h
      unfold tsQuotedStep at h'
      cases hq : quotedTermCond env a with
      | some c => rw [hq] at h'; exact queryWhere_subset q _ r h'
      | none => rw [hq] at h'; exact h'

theorem by_has_subset (nb : NarrowBuilder) (st : BuilderState) (q : Query) (operand : Operand)
    (negated : Bool) (st' : BuilderState) (q' : Query) (r : MessageRow)
    (h : by_has nb st q operand negated = .ok (st', q')) (hr : q' r = true) : q r = true := by
  unfold by_has at h
  repeat' split at h
  all_goals simp at h
  all_goals obtain ⟨h1, h2⟩ := h
  all_goals subst h2
  all_goals exact queryWhere_subset q _ r hr

theorem by_in_subset (nb : NarrowBuilder) (st : BuilderState) (q : Query) (operand : Operand)
    (negated : Bool) (st' : BuilderState) (q' : Query) (r : MessageRow)
    (h : by_in nb st q operand negated = .ok (st', q')) (hr : q' r = true) : q r = true := by
  unfold by_in at h
  repeat' split at h
  all_goals simp at h
  all_goals obtain ⟨h1, h2⟩ := h
  all_goals subst h2
  all_goals first
    | exact queryWhere_subset q _ r hr
    | exact hr

theorem by_is_subset (nb : NarrowBuilder) (st : BuilderState) (q : Query) (operand : Operand)
    (negated : Bool) (st' : BuilderState) (q' : Query) (r : MessageRow)
    (h : by_is nb st q operand negated = .ok (st', q')) (hr : q' r = true) : q r = true := by
  unfold by_is at h
  repeat' split at h
  all_goals simp at h
  all_goals obtain ⟨h1, h2⟩ := h
  all_goals subst h2
  all_goals exact queryWhere_subset q _ r hr

theorem by_channel_subset (nb : NarrowBuilder) (st : BuilderState) (q : Query)
    (operand : Operand) (negated : Bool) (st' : BuilderState) (q' : Query) (r : MessageRow)
    (h : by_channel nb st q operand negated = .ok (st', q')) (hr : q' r = true) : q r = true := by
  unfold by_channel at h
  repeat' split at h
  all_goals simp at h
  all_goals obtain ⟨h1, h2⟩ := h
  all_goals subst h2
  all_goals exact queryWhere_subset q _ r hr

theorem by_channels_subset (nb : NarrowBuilder) (st : BuilderState) (q : Query)
    (operand : Operand) (negated : Bool) (st' : BuilderState) (q' : Query) (r : MessageRow)
    (h : by_channels nb st q operand negated = .ok (st', q')) (hr : q' r = true) : q r = true := by
  unfold by_channels at h
  repeat' split at h
  all_goals simp at h
  all_goals obtain ⟨h1, h2⟩ := h
  all_goals subst h2
  all_goals exact queryWhere_subset q _ r hr

theorem by_topic_subset (nb : NarrowBuilder) (st : BuilderState) (q : Query)
    (operand : Operand) (negated : Bool) (st' : BuilderState) (q' : Query) (r : MessageRow)
    (h : by_topic nb st q operand negated = .ok (st', q')) (hr : q' r = true) : q r = true := by
  unfold by_topic at h
  repeat' split at h
  all_goals simp at h
  all_goals obtain ⟨h1, h2⟩ := h
  all_goals subst h2
  all_goals exact queryWhere_subset q _ r hr

theorem by_sender_subset (nb : NarrowBuilder) (st : BuilderState) (q : Query)
    (operand : Operand) (negated : Bool) (st' : BuilderState) (q' : Query) (r : MessageRow)
    (h : by_sender nb st q operand negated = .ok (st', q')) (hr : q' r = true) : q r = true := by
  unfold by_sender at h
  repeat' split at h
  all_goals simp at h
  all_goals obtain ⟨h1, h2⟩ := h
  all_goals subst h2
  all_goals exact queryWhere_subset q _ r hr

theorem by_near_subset (nb : NarrowBuilder) (st : BuilderState) (q : Query)
    (operand : Operand) (negated : Bool) (st' : BuilderState) (q' : Query) (r : MessageRow)
    (h : by_near nb st q operand negated = .ok (st', q')) (hr : q' r = true) : q r = true := by
  unfold by_near at h
  simp at h
  obtain ⟨h1, h2⟩ := h
  subst h2
  exact hr

theorem by_id_subset (nb : NarrowBuilder) (st : BuilderState) (q : Query)
    (operand : Operand) (negated : Bool) (st' : BuilderState) (q' : Query) (r : MessageRow)
    (h : by_id nb st q operand negated = .ok (st', q')) (hr : q' r = true) : q r = true := by
  unfold by_id at h
  repeat' split at h
  all_goals simp at h
  all_goals obtain ⟨h1, h2⟩ := h
  all_goals subst h2
  all_goals exact queryWhere_subset q _ r hr

theorem by_dm_subset (nb : NarrowBuilder) (st : BuilderState) (q : Query)
    (operand : Operand) (negated : Bool) (st' : BuilderState) (q' : Query) (r : MessageRow)
    (h : by_dm nb st q operand negated = .ok (st', q')) (hr : q' r = true) : q r = true := by
  unfold by_dm at h
  repeat' split at h
  all_goals simp at h
  all_goals obtain ⟨h1, h2⟩ := h
  all_goals subst h2
  all_goals exact queryWhere_subset q _ r hr

theorem by_dm_including_subset (nb : NarrowBuilder) (st : BuilderState) (q : Query)
    (operand : Operand) (negated : Bool) (st' : BuilderState) (q' : Query) (r : MessageRow)
    (h : by_dm_including nb st q operand negated = .ok (st', q')) (hr : q' r = true) :
    q r = true := by
  unfold by_dm_including at h
  repeat' split at h
  all_goals simp at h
  all_goals obtain ⟨h1, h2⟩ := h
  all_goals subst h2
  all_goals exact queryWhere_subset q _ r hr

theorem by_group_pm_with_subset (nb : NarrowBuilder) (st : BuilderState) (q : Query)
    (operand : Operand) (negated : Bool) (st' : BuilderState) (q' : Query) (r : MessageRow)
    (h : by_group_pm_with nb st q operand negated = .ok (st', q')) (hr : q' r = true) :
    q r = true := by
  unfold by_group_pm_with at h
  repeat' split at h
  all_goals simp at h
  all_goals obtain ⟨h1, h2⟩ := h
  all_goals subst h2
  all_goals exact queryWhere_subset q _ r hr

theorem by_search_subset (nb : NarrowBuilder) (st : BuilderState) (q : Query)
    (operand : Operand) (negated : Bool) (st' : BuilderState) (q' : Query) (r : MessageRow)
    (h : by_search nb st q operand negated = .ok (st', q')) (hr : q' r = true) : q r = true := by
  unfold by_search by_search_tsearch at h
  repeat' split at h
  all_goals simp at h
  all_goals obtain ⟨h1, h2⟩ := h
  all_goals subst h2
  · exact queryWhere_subset q _ r hr
  · exact foldl_tsQuotedStep_subset nb.env negated _ q r (queryWhere_subset _ _ r hr)

/- A handler delivered by by_method_map is one of the thirteen by_*
   functions. -/
theorem by_method_map_mem (operator : String) (m : ByMethod)
    (hm : by_method_map operator = some m) :
    m = by_has ∨ m = by_in ∨ m = by_is ∨ m = by_channel ∨ m = by_channels ∨
    m = by_topic ∨ m = by_sender ∨ m = by_near ∨ m = by_id ∨ m = by_search ∨
    m = by_dm ∨ m = by_dm_including ∨ m = by_group_pm_with := by
  unfold by_method_map at hm
  cases hfind : List.find? (fun p => p.1 == operator) by_method_list with
  | none => rw [hfind] at hm; cases hm
  | some p =>
      rw [hfind] at hm
      have hmem : p ∈ by_method_list := List.mem_of_find?_eq_some hfind
      have hmp : m = p.2 := by injection hm with h1; exact h1.symm
      simp only [by_method_list, List.mem_cons, List.not_mem_nil, or_false] at hmem
      rcases hmem with h|h|h|h|h|h|h|h|h|h|h|h|h|h|h|h|h|h <;> subst h <;> subst hmp <;> simp

/- Every handler reachable from by_method_map satisfies the subset
   property. -/
theorem by_method_map_subset (operator : String) (m : ByMethod)
    (hm : by_method_map operator = some m) (nb : NarrowBuilder) (st : BuilderState)
    (q : Query) (operand : Operand) (negated : Bool) (st' : BuilderState) (q' : Query)
    (r : MessageRow) (h : m nb st q operand negated = .ok (st', q')) (hr : q' r = true) :
    q r = true := by
  rcases by_method_map_mem operator m hm with
    hd|hd|hd|hd|hd|hd|hd|hd|hd|hd|hd|hd|hd <;> subst hd
  · exact by_has_subset nb st q operand negated st' q' r h hr
  · exact by_in_subset nb st q operand negated st' q' r h hr
  · exact by_is_subset nb st q operand negated st' q' r h hr
  · exact by_channel_subset nb st q operand negated st' q' r h hr
  · exact by_channels_subset nb st q operand negated st' q' r h hr
  · exact by_topic_subset nb st q operand negated st' q' r h hr
  · exact by_sender_subset nb st q operand negated st' q' r h hr
  · exact by_near_subset nb st q operand negated st' q' r h hr
  · exact by_id_subset nb st q operand negated st' q' r h hr
  · exact by_search_subset nb st q operand negated st' q' r h hr
  · exact by_dm_subset nb st q operand negated st' q' r h hr
  · exact by_dm_including_subset nb st q operand negated st' q' r h hr
  · exact by_group_pm_with_subset nb st q operand negated st' q' r h hr

/- The subset property of add_term: a successful add_term never adds
   rows to the query's result set. -/
theorem add_term_subset (nb : NarrowBuilder) (st : BuilderState) (q : Query)
    (term : NarrowParameter) (st' : BuilderState) (q' : Query) (r : MessageRow)
    (h : add_term nb st q term = .ok (st', q')) (hr : q' r = true) : q r = true := by
  unfold add_term at h
  revert h
  cases hmap : by_method_map term.operator with
  | some m =>
      intro h
      exact by_method_map_subset term.operator m hmap nb st q term.operand term.negated
        st' q' r h hr
  | none => intro h; cases h

/- ---------------------------------------------------------------------
   Concrete fixtures used by witnesses and counterexamples: a small
   environment in which channel "c" (recipient id 200) and user 7 resolve
   and a dm narrow on [7] resolves to a 1:1 conversation.
   --------------------------------------------------------------------- -/

def testMasks : FlagMasks := ⟨1, 2, 8, 16, 32, 64, 4, 2048⟩

def testUser : UserInfo := ⟨1, 100⟩

def testChannel : ChannelInfo := ⟨"c", some 200, true, true⟩

def testEnv : Env :=
  ⟨testMasks, [], fun _ => false, fun _ _ => false, fun _ => false,
   fun o => if o = Operand.str "c" then some testChannel else none,
   fun _ => [], [200], [200],
   fun t r => t == r.topic,
   fun o => if o = Operand.int 7 then some ⟨7, 107⟩ else none,
   fun o => if o = Operand.intList [7] then DmLookup.resolved false 107 (some ⟨7, 107⟩)
            else DmLookup.unknownUser,
   fun _ => [], 9007199254740991, false, fun _ _ => false, fun _ _ => false,
   fun _ _ => false⟩

def testNB : NarrowBuilder := ⟨testEnv, some testUser, 1, false, false⟩

def qTrue : Query := fun _ => true

def testRow : MessageRow := ⟨30, 1, 7, 200, 0, "t", "hello", false, false, false, true⟩

/-- Claim C1: the narrowing invariant of NarrowBuilder.add_term — for
every builder configuration, marker state, query R and term T (negated or
not), a successful add_term returns a query whose result set is a subset
of R's result set: no operator handler ever adds rows, it may only add
filtering predicates (auxiliary highlight columns do not change the row
set). -/
theorem c1_add_term_narrows (nb : NarrowBuilder) (st : BuilderState) (q : Query)
    (term : NarrowParameter) (st' : BuilderState) (q' : Query)
    (h : add_term nb st q term = .ok (st', q')) :
    ∀ r : MessageRow, q' r = true → q r = true :=
  fun r hr => add_term_subset nb st q term st' q' r h hr

/-- Claim C1 witness: the narrowing invariant applied to a concrete
channel term compiled in the test environment, at a concrete row. -/
theorem c1_witness : qTrue testRow = true :=
  c1_add_term_narrows testNB ⟨false, false⟩ qTrue ⟨"channel", .str "c", false⟩ ⟨true, false⟩
    (queryWhere qTrue (maybe_negate false (fun r => r.recipient_id == 200))) rfl testRow rfl

/- ---------------------------------------------------------------------
   Marker-state evolution: handlers may only set the channel/DM markers,
   never clear them, and never successfully produce a state with both
   markers set unless both were already set (the mutual-exclusion check
   raises instead).
   --------------------------------------------------------------------- -/

def comboErr : NarrowError := .badNarrowOperator comboErrDesc

def stEvolve (st st' : BuilderState) : Prop :=
  (st.is_channel_narrow = true → st'.is_channel_narrow = true) ∧
  (st.is_dm_narrow = true → st'.is_dm_narrow = true) ∧
  (¬(st.is_channel_narrow = true ∧ st.is_dm_narrow = true) →
    ¬(st'.is_channel_narrow = true ∧ st'.is_dm_narrow = true))

theorem stEvolve_refl (st : BuilderState) : stEvolve st st := ⟨id, id, id⟩

theorem stEvolveFromEq {st stX : BuilderState} (h : stX = st) : stEvolve st stX := by
  subst h; exact stEvolve_refl _

theorem stEvolve_trans {st1 st2 st3 : BuilderState} (h1 : stEvolve st1 st2)
    (h2 : stEvolve st2 st3) : stEvolve st1 st3 :=
  ⟨fun h => h2.1 (h1.1 h), fun h => h2.2.1 (h1.2.1 h), fun h => h2.2.2 (h1.2.2 h)⟩

theorem check_not_both_evolve (st : BuilderState) (n d c : Bool) (st' : BuilderState)
    (h : check_not_both_channel_and_dm_narrow st n d c = .ok st') : stEvolve st st' := by
  unfold check_not_both_channel_and_dm_narrow at h
  split at h
  · cases h; exact stEvolve_refl _
  · split at h
    · cases h
    · rename_i hcond
      cases h
      refine ⟨fun hc => by simp [hc], fun hd => by simp [hd], fun _ hboth => ?_⟩
      exact hcond ((Bool.and_eq_true _ _).mpr ⟨hboth.1, hboth.2⟩)

theorem check_not_both_sets_channel (st : BuilderState) (d : Bool) (st' : BuilderState)
    (h : check_not_both_channel_and_dm_narrow st false d true = .ok st') :
    st'.is_channel_narrow = true := by
  unfold check_not_both_channel_and_dm_narrow at h
  split at h
  · rename_i hfalse; exact absurd hfalse (by simp)
  · split at h
    · cases h
    · cases h; simp

theorem check_not_both_sets_dm (st : BuilderState) (c : Bool) (st' : BuilderState)
    (h : check_not_both_channel_and_dm_narrow st false true c = .ok st') :
    st'.is_dm_narrow = true := by
  unfold check_not_both_channel_and_dm_narrow at h
  split at h
  · rename_i hfalse; exact absurd hfalse (by simp)
  · split at h
    · cases h
    · cases h; simp

theorem check_not_both_conflict_dm (st : BuilderState)
    (hd : st.is_dm_narrow = true) :
    check_not_both_channel_and_dm_narrow st false false true = .error comboErr := by
  simp [check_not_both_channel_and_dm_narrow, hd, comboErr]

theorem check_not_both_conflict_channel (st : BuilderState)
    (hc : st.is_channel_narrow = true) :
    check_not_both_channel_and_dm_narrow st false true false = .error comboErr := by
  simp [check_not_both_channel_and_dm_narrow, hc, comboErr]

/- Handlers that never touch the marker state return it unchanged. -/

theorem by_has_state (nb : NarrowBuilder) (st : BuilderState) (q : Query) (operand : Operand)
    (negated : Bool) (st' : BuilderState) (q' : Query)
    (h : by_has nb st q operand negated = .ok (st', q')) : st' = st := by
  unfold by_has at h
  repeat' split at h
  all_goals simp at h
  all_goals exact h.1.symm

theorem by_in_state (nb : NarrowBuilder) (st : BuilderState) (q : Query) (operand : Operand)
    (negated : Bool) (st' : BuilderState) (q' : Query)
    (h : by_in nb st q operand negated = .ok (st', q')) : st' = st := by
  unfold by_in at h
  repeat' split at h
  all_goals simp at h
  all_goals exact h.1.symm

theorem by_sender_state (nb : NarrowBuilder) (st : BuilderState) (q : Query)
    (operand : Operand) (negated : Bool) (st' : BuilderState) (q' : Query)
    (h : by_sender nb st q operand negated = .ok (st', q')) : st' = st := by
  unfold by_sender at h
  repeat' split at h
  all_goals simp at h
  all_goals exact h.1.symm

theorem by_near_state (nb : NarrowBuilder) (st : BuilderState) (q : Query)
    (operand : Operand) (negated : Bool) (st' : BuilderState) (q' : Query)
    (h : by_near nb st q operand negated = .ok (st', q')) : st' = st := by
  unfold by_near at h
  simp at h
  exact h.1.symm

theorem by_id_state (nb : NarrowBuilder) (st : BuilderState) (q : Query)
    (operand : Operand) (negated : Bool) (st' : BuilderState) (q' : Query)
    (h : by_id nb st q operand negated = .ok (st', q')) : st' = st := by
  unfold by_id at h
  repeat' split at h
  all_goals simp at h
  all_goals exact h.1.symm

theorem by_search_state (nb : NarrowBuilder) (st : BuilderState) (q : Query)
    (operand : Operand) (negated : Bool) (st' : BuilderState) (q' : Query)
    (h : by_search nb st q operand negated = .ok (st', q')) : st' = st := by
  unfold by_search by_search_tsearch at h
  repeat' split at h
  all_goals simp at h
  all_goals exact h.1.symm

/- Handlers that consult the mutual-exclusion check evolve the state as
   that check does. -/

theorem by_channel_evolve (nb : NarrowBuilder) (st : BuilderState) (q : Query)
    (operand : Operand) (negated : Bool) (st' : BuilderState) (q' : Query)
    (h : by_channel nb st q operand negated = .ok (st', q')) : stEvolve st st' := by
  unfold by_channel at h
  split at h
  · cases h
  · rename_i st1 heq
    have hev := check_not_both_evolve st negated false true st1 heq
    repeat' split at h
    all_goals simp at h
    all_goals obtain ⟨h1, h2⟩ := h
    all_goals subst h1
    all_goals exact hev

theorem by_channels_evolve (nb : NarrowBuilder) (st : BuilderState) (q : Query)
    (operand : Operand) (negated : Bool) (st' : BuilderState) (q' : Query)
    (h : by_channels nb st q operand negated = .ok (st', q')) : stEvolve st st' := by
  unfold by_channels at h
  split at h
  · cases h
  · rename_i st1 heq
    have hev := check_not_both_evolve st negated false true st1 heq
    repeat' split at h
    all_goals simp at h
    all_goals obtain ⟨h1, h2⟩ := h
    all_goals subst h1
    all_goals exact hev

theorem by_topic_evolve (nb : NarrowBuilder) (st : BuilderState) (q : Query)
    (operand : Operand) (negated : Bool) (st' : BuilderState) (q' : Query)
    (h : by_topic nb st q operand negated = .ok (st', q')) : stEvolve st st' := by
  unfold by_topic at h
  split at h
  · cases h
  · rename_i st1 heq
    have hev := check_not_both_evolve st negated false true st1 heq
    repeat' split at h
    all_goals simp at h
    all_goals obtain ⟨h1, h2⟩ := h
    all_goals subst h1
    all_goals exact hev

theorem by_dm_evolve (nb : NarrowBuilder) (st : BuilderState) (q : Query)
    (operand : Operand) (negated : Bool) (st' : BuilderState) (q' : Query)
    (h : by_dm nb st q operand negated = .ok (st', q')) : stEvolve st st' := by
  unfold by_dm at h
  split at h
  · cases h
  · split at h
    · cases h
    · split at h
      · cases h
      · rename_i st1 heq
        have hev := check_not_both_evolve st negated true false st1 heq
        repeat' split at h
        all_goals simp at h
        all_goals obtain ⟨h1, h2⟩ := h
        all_goals subst h1
        all_goals exact hev

theorem by_dm_including_evolve (nb : NarrowBuilder) (st : BuilderState) (q : Query)
    (operand : Operand) (negated : Bool) (st' : BuilderState) (q' : Query)
    (h : by_dm_including nb st q operand negated = .ok (st', q')) : stEvolve st st' := by
  unfold by_dm_including at h
  split at h
  · cases h
  · split at h
    · cases h
    · split at h
      · cases h
      · rename_i st1 heq
        have hev := check_not_both_evolve st negated true false st1 heq
        repeat' split at h
        all_goals simp at h
        all_goals obtain ⟨h1, h2⟩ := h
        all_goals subst h1
        all_goals exact hev

theorem by_group_pm_with_evolve (nb : NarrowBuilder) (st : BuilderState) (q : Query)
    (operand : Operand) (negated : Bool) (st' : BuilderState) (q' : Query)
    (h : by_group_pm_with nb st q operand negated = .ok (st', q')) : stEvolve st st' := by
  unfold by_group_pm_with at h
  split at h
  · cases h
  · split at h
    · cases h
    · split at h
      · cases h
      · rename_i st1 heq
        have hev := check_not_both_evolve st negated true false st1 heq
        repeat' split at h
        all_goals simp at h
        all_goals obtain ⟨h1, h2⟩ := h
        all_goals subst h1
        all_goals exact hev

theorem by_is_evolve (nb : NarrowBuilder) (st : BuilderState) (q : Query)
    (operand : Operand) (negated : Bool) (st' : BuilderState) (q' : Query)
    (h : by_is nb st q operand negated = .ok (st', q')) : stEvolve st st' := by
  unfold by_is at h
  split at h
  · simp at h; obtain ⟨h1, h2⟩ := h; subst h1; exact stEvolve_refl st
  · split at h
    · cases h
    · split at h
      · cases h
      · split at h
        · split at h
          · cases h
          · rename_i st1 heq
            have hev : stEvolve st st1 := by
              cases negated
              · simp at heq
                exact check_not_both_evolve st false true false st1 heq
              · simp at heq
                exact check_not_both_evolve st false false true st1 heq
            simp at h; obtain ⟨h1, h2⟩ := h; subst h1; exact hev
        · repeat' split at h
          all_goals simp at h
          all_goals obtain ⟨h1, h2⟩ := h
          all_goals subst h1
          all_goals exact stEvolve_refl st

/- Non-negated channel-scoped handlers set the channel marker; non-negated
   DM-scoped handlers set the DM marker. -/

theorem by_channel_sets (nb : NarrowBuilder) (st : BuilderState) (q : Query)
    (operand : Operand) (st' : BuilderState) (q' : Query)
    (h : by_channel nb st q operand false = .ok (st', q')) :
    st'.is_channel_narrow = true := by
  unfold by_channel at h
  split at h
  · cases h
  · rename_i st1 heq
    have hset := check_not_both_sets_channel st false st1 heq
    repeat' split at h
    all_goals simp at h
    all_goals obtain ⟨h1, h2⟩ := h
    all_goals subst h1
    all_goals exact hset

theorem by_channels_sets (nb : NarrowBuilder) (st : BuilderState) (q : Query)
    (operand : Operand) (st' : BuilderState) (q' : Query)
    (h : by_channels nb st q operand false = .ok (st', q')) :
    st'.is_channel_narrow = true := by
  unfold by_channels at h
  split at h
  · cases h
  · rename_i st1 heq
    have hset := check_not_both_sets_channel st false st1 heq
    repeat' split at h
    all_goals simp at h
    all_goals obtain ⟨h1, h2⟩ := h
    all_goals subst h1
    all_goals exact hset

theorem by_topic_sets (nb : NarrowBuilder) (st : BuilderState) (q : Query)
    (operand : Operand) (st' : BuilderState) (q' : Query)
    (h : by_topic nb st q operand false = .ok (st', q')) :
    st'.is_channel_narrow = true := by
  unfold by_topic at h
  split at h
  · cases h
  · rename_i st1 heq
    have hset := check_not_both_sets_channel st false st1 heq
    repeat' split at h
    all_goals simp at h
    all_goals obtain ⟨h1, h2⟩ := h
    all_goals subst h1
    all_goals exact hset

theorem by_dm_sets (nb : NarrowBuilder) (st : BuilderState) (q : Query)
    (operand : Operand) (st' : BuilderState) (q' : Query)
    (h : by_dm nb st q operand false = .ok (st', q')) : st'.is_dm_narrow = true := by
  unfold by_dm at h
  split at h
  · cases h
  · split at h
    · cases h
    · split at h
      · cases h
      · rename_i st1 heq
        have hset := check_not_both_sets_dm st false st1 heq
        repeat' split at h
        all_goals simp at h
        all_goals obtain ⟨h1, h2⟩ := h
        all_goals subst h1
        all_goals exact hset

theorem by_dm_including_sets (nb : NarrowBuilder) (st : BuilderState) (q : Query)
    (operand : Operand) (st' : BuilderState) (q' : Query)
    (h : by_dm_including nb st q operand false = .ok (st', q')) : st'.is_dm_narrow = true := by
  unfold by_dm_including at h
  split at h
  · cases h
  · split at h
    · cases h
    · split at h
      · cases h
      · rename_i st1 heq
        have hset := check_not_both_sets_dm st false st1 heq
        repeat' split at h
        all_goals simp at h
        all_goals obtain ⟨h1, h2⟩ := h
        all_goals subst h1
        all_goals exact hset

theorem by_group_pm_with_sets (nb : NarrowBuilder) (st : BuilderState) (q : Query)
    (operand : Operand) (st' : BuilderState) (q' : Query)
    (h : by_group_pm_with nb st q operand false = .ok (st', q')) :
    st'.is_dm_narrow = true := by
  unfold by_group_pm_with at h
  split at h
  · cases h
  · split at h
    · cases h
    · split at h
      · cases h
      · rename_i st1 heq
        have hset := check_not_both_sets_dm st false st1 heq
        repeat' split at h
        all_goals simp at h
        all_goals obtain ⟨h1, h2⟩ := h
        all_goals subst h1
        all_goals exact hset

theorem by_is_sets_dm (nb : NarrowBuilder) (st : BuilderState) (q : Query)
    (operand : Operand) (st' : BuilderState) (q' : Query)
    (hop : operand = Operand.str "dm" ∨ operand = Operand.str "private")
    (h : by_is nb st q operand false = .ok (st', q')) : st'.is_dm_narrow = true := by
  unfold by_is at h
  split at h
  case isTrue =>
    rename_i hres
    rcases hop with hx | hx <;> rw [hx] at hres <;> exact absurd hres (by decide)
  case isFalse =>
  split at h
  case isTrue => cases h
  case isFalse =>
  split at h
  case h_1 => cases h
  case h_2 =>
  split at h
  case h_1 => cases h
  case h_2 =>
    rename_i st1 heq
    simp at heq
    have hset := check_not_both_sets_dm st false st1 heq
    simp at h
    obtain ⟨h1, h2⟩ := h
    subst h1
    exact hset

/- The operator lists that set the channel marker and the DM marker
   through by_method_map (dm/private operands of the is operator are the
   further DM-scoping case). -/

def channelScopedOps : List String := ["channel", "stream", "channels", "streams", "topic"]

def dmScopedOps : List String :=
  ["dm", "pm-with", "pm_with", "dm-including", "group-pm-with", "group_pm_with"]

def channelScopedTerm (t : NarrowParameter) : Prop :=
  t.negated = false ∧ t.operator ∈ channelScopedOps

def dmScopedTerm (t : NarrowParameter) : Prop :=
  t.negated = false ∧
    (t.operator ∈ dmScopedOps ∨
     (t.operator = "is" ∧
       (t.operand = Operand.str "dm" ∨ t.operand = Operand.str "private")))

/- A handler delivered by by_method_map, together with the operator that
   delivered it. -/
theorem by_method_map_cases (operator : String) (m : ByMethod)
    (hm : by_method_map operator = some m) :
    (operator = "has" ∧ m = by_has) ∨ (operator = "in" ∧ m = by_in) ∨
    (operator = "is" ∧ m = by_is) ∨ (operator = "channel" ∧ m = by_channel) ∨
    (operator = "stream" ∧ m = by_channel) ∨ (operator = "channels" ∧ m = by_channels) ∨
    (operator = "streams" ∧ m = by_channels) ∨ (operator = "topic" ∧ m = by_topic) ∨
    (operator = "sender" ∧ m = by_sender) ∨ (operator = "near" ∧ m = by_near) ∨
    (operator = "id" ∧ m = by_id) ∨ (operator = "search" ∧ m = by_search) ∨
    (operator = "dm" ∧ m = by_dm) ∨ (operator = "pm-with" ∧ m = by_dm) ∨
    (operator = "dm-including" ∧ m = by_dm_including) ∨
    (operator = "group-pm-with" ∧ m = by_group_pm_with) ∨
    (operator = "pm_with" ∧ m = by_dm) ∨
    (operator = "group_pm_with" ∧ m = by_group_pm_with) := by
  unfold by_method_map at hm
  cases hfind : List.find? (fun p => p.1 == operator) by_method_list with
  | none => rw [hfind] at hm; cases hm
  | some p =>
      rw [hfind] at hm
      have hmem : p ∈ by_method_list := List.mem_of_find?_eq_some hfind
      have hbeq := List.find?_some hfind
      have hop : operator = p.1 := (eq_of_beq hbeq).symm
      have hmp : m = p.2 := by injection hm with h1; exact h1.symm
      simp only [by_method_list, List.mem_cons, List.not_mem_nil, or_false] at hmem
      rcases hmem with hx|hx|hx|hx|hx|hx|hx|hx|hx|hx|hx|hx|hx|hx|hx|hx|hx|hx <;>
        subst hx <;> subst hmp <;> subst hop <;> simp

/- Successful add_term evolves the marker state monotonically. -/
theorem add_term_evolve (nb : NarrowBuilder) (st : BuilderState) (q : Query)
    (t : NarrowParameter) (st' : BuilderState) (q' : Query)
    (h : add_term nb st q t = .ok (st', q')) : stEvolve st st' := by
  unfold add_term at h
  cases hmap : by_method_map t.operator with
  | none => rw [hmap] at h; cases h
  | some m =>
      rw [hmap] at h
      rcases by_method_map_mem t.operator m hmap with
        hd|hd|hd|hd|hd|hd|hd|hd|hd|hd|hd|hd|hd <;> subst hd
      · exact stEvolveFromEq (by_has_state nb st q t.operand t.negated st' q' h)
      · exact stEvolveFromEq (by_in_state nb st q t.operand t.negated st' q' h)
      · exact by_is_evolve nb st q t.operand t.negated st' q' h
      · exact by_channel_evolve nb st q t.operand t.negated st' q' h
      · exact by_channels_evolve nb st q t.operand t.negated st' q' h
      · exact by_topic_evolve nb st q t.operand t.negated st' q' h
      · exact stEvolveFromEq (by_sender_state nb st q t.operand t.negated st' q' h)
      · exact stEvolveFromEq (by_near_state nb st q t.operand t.negated st' q' h)
      · exact stEvolveFromEq (by_id_state nb st q t.operand t.negated st' q' h)
      · exact stEvolveFromEq (by_search_state nb st q t.operand t.negated st' q' h)
      · exact by_dm_evolve nb st q t.operand t.negated st' q' h
      · exact by_dm_including_evolve nb st q t.operand t.negated st' q' h
      · exact by_group_pm_with_evolve nb st q t.operand t.negated st' q' h

/- A successful non-negated channel-scoped add_term sets the channel
   marker. -/
theorem add_term_sets_channel (nb : NarrowBuilder) (st : BuilderState) (q : Query)
    (t : NarrowParameter) (st' : BuilderState) (q' : Query)
    (hop : t.operator ∈ channelScopedOps) (hneg : t.negated = false)
    (h : add_term nb st q t = .ok (st', q')) : st'.is_channel_narrow = true := by
  unfold add_term at h
  rw [hneg] at h
  simp only [channelScopedOps, List.mem_cons, List.not_mem_nil, or_false] at hop
  rcases hop with h1|h1|h1|h1|h1 <;> rw [h1] at h
  · rw [show by_method_map "channel" = some by_channel from rfl] at h
    exact by_channel_sets nb st q t.operand st' q' h
  · rw [show by_method_map "stream" = some by_channel from rfl] at h
    exact by_channel_sets nb st q t.operand st' q' h
  · rw [show by_method_map "channels" = some by_channels from rfl] at h
    exact by_channels_sets nb st q t.operand st' q' h
  · rw [show by_method_map "streams" = some by_channels from rfl] at h
    exact by_channels_sets nb st q t.operand st' q' h
  · rw [show by_method_map "topic" = some by_topic from rfl] at h
    exact by_topic_sets nb st q t.operand st' q' h

/- A successful non-negated DM-scoped add_term sets the DM marker. -/
theorem add_term_sets_dm (nb : NarrowBuilder) (st : BuilderState) (q : Query)
    (t : NarrowParameter) (st' : BuilderState) (q' : Query)
    (hop : t.operator ∈ dmScopedOps ∨
      (t.operator = "is" ∧ (t.operand = Operand.str "dm" ∨ t.operand = Operand.str "private")))
    (hneg : t.negated = false)
    (h : add_term nb st q t = .ok (st', q')) : st'.is_dm_narrow = true := by
  unfold add_term at h
  rw [hneg] at h
  rcases hop with hop | ⟨hop, hoperand⟩
  · simp only [dmScopedOps, List.mem_cons, List.not_mem_nil, or_false] at hop
    rcases hop with h1|h1|h1|h1|h1|h1 <;> rw [h1] at h
    · rw [show by_method_map "dm" = some by_dm from rfl] at h
      exact by_dm_sets nb st q t.operand st' q' h
    · rw [show by_method_map "pm-with" = some by_dm from rfl] at h
      exact by_dm_sets nb st q t.operand st' q' h
    · rw [show by_method_map "pm_with" = some by_dm from rfl] at h
      exact by_dm_sets nb st q t.operand st' q' h
    · rw [show by_method_map "dm-including" = some by_dm_including from rfl] at h
      exact by_dm_including_sets nb st q t.operand st' q' h
    · rw [show by_method_map "group-pm-with" = some by_group_pm_with from rfl] at h
      exact by_group_pm_with_sets nb st q t.operand st' q' h
    · rw [show by_method_map "group_pm_with" = some by_group_pm_with from rfl] at h
      exact by_group_pm_with_sets nb st q t.operand st' q' h
  · rw [hop] at h
    rw [show by_method_map "is" = some by_is from rfl] at h
    exact by_is_sets_dm nb st q t.operand st' q' hoperand h

/- ---------------------------------------------------------------------
   Channel/DM mutual exclusion over whole narrows.
   --------------------------------------------------------------------- -/

theorem loop_evolve (nb : NarrowBuilder) :
    ∀ (terms : List NarrowParameter) (st : BuilderState) (q : Query) (ops : List String)
      (st'' : BuilderState) (q'' : Query) (ops'' : List String),
      add_narrow_conditions_loop nb terms st q ops = .ok (st'', q'', ops'') →
      stEvolve st st'' := by
  intro terms
  induction terms with
  | nil =>
      intro st q ops st'' q'' ops'' h
      unfold add_narrow_conditions_loop at h
      simp at h
      obtain ⟨h1, h2, h3⟩ := h
      subst h1
      exact stEvolve_refl _
  | cons t rest ih =>
      intro st q ops st'' q'' ops'' h
      unfold add_narrow_conditions_loop at h
      split at h
      · exact ih st q _ st'' q'' ops'' h
      · cases ha : add_term nb st q t with
        | error e => rw [ha] at h; cases h
        | ok p =>
            obtain ⟨st1, q1⟩ := p
            rw [ha] at h
            exact stEvolve_trans (add_term_evolve nb st q t st1 q1 ha)
              (ih st1 q1 ops st'' q'' ops'' h)

theorem loop_sets_channel (nb : NarrowBuilder) :
    ∀ (terms : List NarrowParameter) (st : BuilderState) (q : Query) (ops : List String)
      (st'' : BuilderState) (q'' : Query) (ops'' : List String),
      (∃ t ∈ terms, channelScopedTerm t) →
      add_narrow_conditions_loop nb terms st q ops = .ok (st'', q'', ops'') →
      st''.is_channel_narrow = true := by
  intro terms
  induction terms with
  | nil =>
      intro st q ops st'' q'' ops'' hex h
      obtain ⟨t, ht, _⟩ := hex
      cases ht
  | cons t rest ih =>
      intro st q ops st'' q'' ops'' hex h
      unfold add_narrow_conditions_loop at h
      obtain ⟨t0, ht0, hsc⟩ := hex
      rcases List.mem_cons.mp ht0 with heq0 | hmem0
      · subst heq0
        have hns : ¬(t0.operator = "search") := by
          obtain ⟨hneg, hop⟩ := hsc
          simp only [channelScopedOps, List.mem_cons, List.not_mem_nil, or_false] at hop
          rcases hop with h1|h1|h1|h1|h1 <;> rw [h1] <;> decide
        rw [if_neg hns] at h
        cases ha : add_term nb st q t0 with
        | error e => rw [ha] at h; cases h
        | ok p =>
            obtain ⟨st1, q1⟩ := p
            rw [ha] at h
            have hset := add_term_sets_channel nb st q t0 st1 q1 hsc.2 hsc.1 ha
            exact (loop_evolve nb rest st1 q1 ops st'' q'' ops'' h).1 hset
      · split at h
        · exact ih st q _ st'' q'' ops'' ⟨t0, hmem0, hsc⟩ h
        · cases ha : add_term nb st q t with
          | error e => rw [ha] at h; cases h
          | ok p =>
              obtain ⟨st1, q1⟩ := p
              rw [ha] at h
              exact ih st1 q1 ops st'' q'' ops'' ⟨t0, hmem0, hsc⟩ h

theorem loop_sets_dm (nb : NarrowBuilder) :
    ∀ (terms : List NarrowParameter) (st : BuilderState) (q : Query) (ops : List String)
      (st'' : BuilderState) (q'' : Query) (ops'' : List String),
      (∃ t ∈ terms, dmScopedTerm t) →
      add_narrow_conditions_loop nb terms st q ops = .ok (st'', q'', ops'') →
      st''.is_dm_narrow = true := by
  intro terms
  induction terms with
  | nil =>
      intro st q ops st'' q'' ops'' hex h
      obtain ⟨t, ht, _⟩ := hex
      cases ht
  | cons t rest ih =>
      intro st q ops st'' q'' ops'' hex h
      unfold add_narrow_conditions_loop at h
      obtain ⟨t0, ht0, hsc⟩ := hex
      rcases List.mem_cons.mp ht0 with heq0 | hmem0
      · subst heq0
        have hns : ¬(t0.operator = "search") := by
          obtain ⟨hneg, hop⟩ := hsc
          rcases hop with hop | ⟨hop, _⟩
          · simp only [dmScopedOps, List.mem_cons, List.not_mem_nil, or_false] at hop
            rcases hop with h1|h1|h1|h1|h1|h1 <;> rw [h1] <;> decide
          · rw [hop]; decide
        rw [if_neg hns] at h
        cases ha : add_term nb st q t0 with
        | error e => rw [ha] at h; cases h
        | ok p =>
            obtain ⟨st1, q1⟩ := p
            rw [ha] at h
            have hset := add_term_sets_dm nb st q t0 st1 q1 hsc.2 hsc.1 ha
            exact (loop_evolve nb rest st1 q1 ops st'' q'' ops'' h).2.1 hset
      · split at h
        · exact ih st q _ st'' q'' ops'' ⟨t0, hmem0, hsc⟩ h
        · cases ha : add_term nb st q t with
          | error e => rw [ha] at h; cases h
          | ok p =>
              obtain ⟨st1, q1⟩ := p
              rw [ha] at h
              exact ih st1 q1 ops st'' q'' ops'' ⟨t0, hmem0, hsc⟩ h

/- A narrow containing both a non-negated channel-scoped term and a
   non-negated DM-scoped term can never compile successfully. -/
theorem narrow_conflict_fails (nb : NarrowBuilder) (q : Query)
    (terms : List NarrowParameter) (t1 t2 : NarrowParameter)
    (h1 : t1 ∈ terms) (h2 : t2 ∈ terms)
    (hc : channelScopedTerm t1) (hd : dmScopedTerm t2) :
    ∀ res, add_narrow_conditions nb q (some terms) ≠ .ok res := by
  intro res hok
  have hok2 : add_narrow_conditions_some nb q terms = .ok res := hok
  unfold add_narrow_conditions_some at hok2
  cases hl : add_narrow_conditions_loop nb terms ⟨false, false⟩ q [] with
  | error e => rw [hl] at hok2; cases hok2
  | ok p =>
      obtain ⟨st'', q'', ops''⟩ := p
      have hch := loop_sets_channel nb terms ⟨false, false⟩ q [] st'' q'' ops''
        ⟨t1, h1, hc⟩ hl
      have hdm := loop_sets_dm nb terms ⟨false, false⟩ q [] st'' q'' ops''
        ⟨t2, h2, hd⟩ hl
      have hev := loop_evolve nb terms ⟨false, false⟩ q [] st'' q'' ops'' hl
      exact hev.2.2 (by simp) ⟨hch, hdm⟩

/- Fixture terms for the mutual-exclusion claims. -/

def chanTermC : NarrowParameter := ⟨"channel", .str "c", false⟩

def dmTermC : NarrowParameter := ⟨"dm", .intList [7], false⟩

def isInvalidOperatorCombination : NarrowError → Bool
  | .invalidOperatorCombination _ => true
  | _ => false

/-- Claim C2 counterexample: the claim says a narrow with a non-negated
channel term and a non-negated dm term always fails with an
InvalidOperatorCombination error, but check_not_both_channel_and_dm_narrow
raises BadNarrowOperatorError ("No message can be both a channel message
and direct message"): compiling [channel c, dm [7]] in the test
environment yields that BadNarrowOperator error, which is not an
InvalidOperatorCombination error. -/
theorem c2_counterexample :
    add_narrow_conditions testNB qTrue (some [chanTermC, dmTermC]) =
      .error (.badNarrowOperator comboErrDesc) ∧
    isInvalidOperatorCombination (.badNarrowOperator comboErrDesc) = false :=
  ⟨rfl, rfl⟩

/-- Claim C2 as amended: a narrow containing both a non-negated
channel-scoped term and a non-negated DM-scoped term never compiles
successfully (the conflict raise site uses BadNarrowOperatorError with
desc "No message can be both a channel message and direct message", not
InvalidOperatorCombinationError), and the same pair with either term
negated compiles successfully when the operands resolve. -/
theorem c2_amended :
    (∀ (nb : NarrowBuilder) (q : Query) (terms : List NarrowParameter)
        (t1 t2 : NarrowParameter), t1 ∈ terms → t2 ∈ terms →
        channelScopedTerm t1 → dmScopedTerm t2 →
        ∀ res, add_narrow_conditions nb q (some terms) ≠ .ok res) ∧
    add_narrow_conditions testNB qTrue (some [chanTermC, dmTermC]) =
      .error (.badNarrowOperator comboErrDesc) ∧
    (∃ res, add_narrow_conditions testNB qTrue
        (some [⟨"channel", .str "c", true⟩, dmTermC]) = .ok res) ∧
    (∃ res, add_narrow_conditions testNB qTrue
        (some [chanTermC, ⟨"dm", .intList [7], true⟩]) = .ok res) := by
  exact ⟨fun nb q terms t1 t2 h1 h2 hc hd =>
    narrow_conflict_fails nb q terms t1 t2 h1 h2 hc hd, rfl, ⟨_, rfl⟩, ⟨_, rfl⟩⟩

/-- Claim C2 witness: the generic failure clause applied to the concrete
conflicting narrow. -/
theorem c2_witness :
    add_narrow_conditions testNB qTrue (some [chanTermC, dmTermC]) ≠
      .ok (qTrue, false, true) :=
  c2_amended.1 testNB qTrue [chanTermC, dmTermC] chanTermC dmTermC
    (by decide) (by decide) ⟨rfl, by decide⟩ ⟨rfl, Or.inl (by decide)⟩ (qTrue, false, true)

/- ---------------------------------------------------------------------
   Negated terms and the marker state.
   --------------------------------------------------------------------- -/

theorem check_not_both_negated (st : BuilderState) (d c : Bool) (st' : BuilderState)
    (h : check_not_both_channel_and_dm_narrow st true d c = .ok st') : st' = st := by
  unfold check_not_both_channel_and_dm_narrow at h
  simp at h
  exact h.symm

theorem by_channel_negated_state (nb : NarrowBuilder) (st : BuilderState) (q : Query)
    (operand : Operand) (st' : BuilderState) (q' : Query)
    (h : by_channel nb st q operand true = .ok (st', q')) : st' = st := by
  unfold by_channel at h
  split at h
  · cases h
  · rename_i st1 heq
    have hst := check_not_both_negated st false true st1 heq
    subst hst
    repeat' split at h
    all_goals simp at h
    all_goals exact h.1.symm

theorem by_channels_negated_state (nb : NarrowBuilder) (st : BuilderState) (q : Query)
    (operand : Operand) (st' : BuilderState) (q' : Query)
    (h : by_channels nb st q operand true = .ok (st', q')) : st' = st := by
  unfold by_channels at h
  split at h
  · cases h
  · rename_i st1 heq
    have hst := check_not_both_negated st false true st1 heq
    subst hst
    repeat' split at h
    all_goals simp at h
    all_goals exact h.1.symm

theorem by_topic_negated_state (nb : NarrowBuilder) (st : BuilderState) (q : Query)
    (operand : Operand) (st' : BuilderState) (q' : Query)
    (h : by_topic nb st q operand true = .ok (st', q')) : st' = st := by
  unfold by_topic at h
  split at h
  · cases h
  · rename_i st1 heq
    have hst := check_not_both_negated st false true st1 heq
    subst hst
    repeat' split at h
    all_goals simp at h
    all_goals exact h.1.symm

theorem by_dm_negated_state (nb : NarrowBuilder) (st : BuilderState) (q : Query)
    (operand : Operand) (st' : BuilderState) (q' : Query)
    (h : by_dm nb st q operand true = .ok (st', q')) : st' = st := by
  unfold by_dm at h
  split at h
  · cases h
  · split at h
    · cases h
    · split at h
      · cases h
      · rename_i st1 heq
        have hst := check_not_both_negated st true false st1 heq
        subst hst
        repeat' split at h
        all_goals simp at h
        all_goals exact h.1.symm

theorem by_dm_including_negated_state (nb : NarrowBuilder) (st : BuilderState) (q : Query)
    (operand : Operand) (st' : BuilderState) (q' : Query)
    (h : by_dm_including nb st q operand true = .ok (st', q')) : st' = st := by
  unfold by_dm_including at h
  split at h
  · cases h
  · split at h
    · cases h
    · split at h
      · cases h
      · rename_i st1 heq
        have hst := check_not_both_negated st true false st1 heq
        subst hst
        repeat' split at h
        all_goals simp at h
        all_goals exact h.1.symm

theorem by_group_pm_with_negated_state (nb : NarrowBuilder) (st : BuilderState) (q : Query)
    (operand : Operand) (st' : BuilderState) (q' : Query)
    (h : by_group_pm_with nb st q operand true = .ok (st', q')) : st' = st := by
  unfold by_group_pm_with at h
  split at h
  · cases h
  · split at h
    · cases h
    · split at h
      · cases h
      · rename_i st1 heq
        have hst := check_not_both_negated st true false st1 heq
        subst hst
        repeat' split at h
        all_goals simp at h
        all_goals exact h.1.symm

theorem by_is_negated_state (nb : NarrowBuilder) (st : BuilderState) (q : Query)
    (operand : Operand) (st' : BuilderState) (q' : Query)
    (hop : ¬(operand = Operand.str "dm" ∨ operand = Operand.str "private"))
    (h : by_is nb st q operand true = .ok (st', q')) : st' = st := by
  unfold by_is at h
  split at h
  · simp at h; exact h.1.symm
  · split at h
    · cases h
    · split at h
      · cases h
      · repeat' split at h
        all_goals simp at h
        all_goals exact h.1.symm

/- No handler invocation on a negated term can raise the mutual-exclusion
   error (the check early-returns on a negated transform), except the
   dm/private arm of by_is, which deliberately passes a non-negated
   transform. -/

theorem by_has_no_combo (nb : NarrowBuilder) (st : BuilderState) (q : Query)
    (operand : Operand) (negated : Bool) :
    by_has nb st q operand negated ≠ .error comboErr := by
  intro h
  unfold by_has at h
  repeat' split at h
  all_goals first
    | (injection h; done)
    | (injection h with h1; exact absurd h1 (by decide))

theorem by_in_no_combo (nb : NarrowBuilder) (st : BuilderState) (q : Query)
    (operand : Operand) (negated : Bool) :
    by_in nb st q operand negated ≠ .error comboErr := by
  intro h
  unfold by_in at h
  repeat' split at h
  all_goals first
    | (injection h; done)
    | (injection h with h1; exact absurd h1 (by decide))

theorem by_sender_no_combo (nb : NarrowBuilder) (st : BuilderState) (q : Query)
    (operand : Operand) (negated : Bool) :
    by_sender nb st q operand negated ≠ .error comboErr := by
  intro h
  unfold by_sender at h
  repeat' split at h
  all_goals first
    | (injection h; done)
    | (injection h with h1; exact absurd h1 (by decide))

theorem by_near_no_combo (nb : NarrowBuilder) (st : BuilderState) (q : Query)
    (operand : Operand) (negated : Bool) :
    by_near nb st q operand negated ≠ .error comboErr := by
  intro h
  unfold by_near at h
  injection h

theorem by_id_no_combo (nb : NarrowBuilder) (st : BuilderState) (q : Query)
    (operand : Operand) (negated : Bool) :
    by_id nb st q operand negated ≠ .error comboErr := by
  intro h
  unfold by_id at h
  repeat' split at h
  all_goals first
    | (injection h; done)
    | (injection h with h1; exact absurd h1 (by decide))

theorem by_search_no_combo (nb : NarrowBuilder) (st : BuilderState) (q : Query)
    (operand : Operand) (negated : Bool) :
    by_search nb st q operand negated ≠ .error comboErr := by
  intro h
  unfold by_search by_search_tsearch at h
  repeat' split at h
  all_goals first
    | (injection h; done)
    | (injection h with h1; exact absurd h1 (by decide))

theorem by_channel_negated_no_combo (nb : NarrowBuilder) (st : BuilderState) (q : Query)
    (operand : Operand) :
    by_channel nb st q operand true ≠ .error comboErr := by
  intro h
  unfold by_channel at h
  split at h
  · rename_i e heq
    rw [show check_not_both_channel_and_dm_narrow st true false true = .ok st from rfl] at heq
    cases heq
  · repeat' split at h
    all_goals first
      | (injection h; done)
      | (injection h with h1; exact absurd h1 (by decide))

theorem by_channels_negated_no_combo (nb : NarrowBuilder) (st : BuilderState) (q : Query)
    (operand : Operand) :
    by_channels nb st q operand true ≠ .error comboErr := by
  intro h
  unfold by_channels at h
  split at h
  · rename_i e heq
    rw [show check_not_both_channel_and_dm_narrow st true false true = .ok st from rfl] at heq
    cases heq
  · repeat' split at h
    all_goals first
      | (injection h; done)
      | (injection h with h1; exact absurd h1 (by decide))

theorem by_topic_negated_no_combo (nb : NarrowBuilder) (st : BuilderState) (q : Query)
    (operand : Operand) :
    by_topic nb st q operand true ≠ .error comboErr := by
  intro h
  unfold by_topic at h
  split at h
  · rename_i e heq
    rw [show check_not_both_channel_and_dm_narrow st true false true = .ok st from rfl] at heq
    cases heq
  · repeat' split at h
    all_goals first
      | (injection h; done)
      | (injection h with h1; exact absurd h1 (by decide))

theorem by_dm_negated_no_combo (nb : NarrowBuilder) (st : BuilderState) (q : Query)
    (operand : Operand) :
    by_dm nb st q operand true ≠ .error comboErr := by
  intro h
  unfold by_dm at h
  split at h
  · injection h with h1; exact absurd h1 (by decide)
  · split at h
    · injection h with h1; exact absurd h1 (by decide)
    · split at h
      · rename_i e heq
        rw [show check_not_both_channel_and_dm_narrow st true true false = .ok st from rfl]
          at heq
        cases heq
      · repeat' split at h
        all_goals first
          | (injection h; done)
          | (injection h with h1; exact absurd h1 (by decide))

theorem by_dm_including_negated_no_combo (nb : NarrowBuilder) (st : BuilderState) (q : Query)
    (operand : Operand) :
    by_dm_including nb st q operand true ≠ .error comboErr := by
  intro h
  unfold by_dm_including at h
  split at h
  · injection h with h1; exact absurd h1 (by decide)
  · split at h
    · injection h with h1; exact absurd h1 (by decide)
    · split at h
      · rename_i e heq
        rw [show check_not_both_channel_and_dm_narrow st true true false = .ok st from rfl]
          at heq
        cases heq
      · repeat' split at h
        all_goals first
          | (injection h; done)
          | (injection h with h1; exact absurd h1 (by decide))

theorem by_group_pm_with_negated_no_combo (nb : NarrowBuilder) (st : BuilderState)
    (q : Query) (operand : Operand) :
    by_group_pm_with nb st q operand true ≠ .error comboErr := by
  intro h
  unfold by_group_pm_with at h
  split at h
  · injection h with h1; exact absurd h1 (by decide)
  · split at h
    · injection h with h1; exact absurd h1 (by decide)
    · split at h
      · rename_i e heq
        rw [show check_not_both_channel_and_dm_narrow st true true false = .ok st from rfl]
          at heq
        cases heq
      · repeat' split at h
        all_goals first
          | (injection h; done)
          | (injection h with h1; exact absurd h1 (by decide))

theorem by_is_negated_no_combo (nb : NarrowBuilder) (st : BuilderState) (q : Query)
    (operand : Operand)
    (hop : ¬(operand = Operand.str "dm" ∨ operand = Operand.str "private")) :
    by_is nb st q operand true ≠ .error comboErr := by
  intro h
  unfold by_is at h
  repeat' split at h
  all_goals first
    | (injection h; done)
    | (injection h with h1; exact absurd h1 (by decide))

/- add_term on a negated term other than is:dm / is:private never changes
   the marker state and never raises the mutual-exclusion error. -/

theorem add_term_negated_preserves (nb : NarrowBuilder) (st : BuilderState) (q : Query)
    (t : NarrowParameter) (st' : BuilderState) (q' : Query)
    (hneg : t.negated = true)
    (hop : ¬(t.operator = "is" ∧
      (t.operand = Operand.str "dm" ∨ t.operand = Operand.str "private")))
    (h : add_term nb st q t = .ok (st', q')) : st' = st := by
  unfold add_term at h
  rw [hneg] at h
  cases hmap : by_method_map t.operator with
  | none => rw [hmap] at h; cases h
  | some m =>
      rw [hmap] at h
      rcases by_method_map_cases t.operator m hmap with
        ⟨ho, hd⟩|⟨ho, hd⟩|⟨ho, hd⟩|⟨ho, hd⟩|⟨ho, hd⟩|⟨ho, hd⟩|⟨ho, hd⟩|⟨ho, hd⟩|⟨ho, hd⟩|
        ⟨ho, hd⟩|⟨ho, hd⟩|⟨ho, hd⟩|⟨ho, hd⟩|⟨ho, hd⟩|⟨ho, hd⟩|⟨ho, hd⟩|⟨ho, hd⟩|⟨ho, hd⟩ <;>
        subst hd
      · exact by_has_state nb st q t.operand true st' q' h
      · exact by_in_state nb st q t.operand true st' q' h
      · exact by_is_negated_state nb st q t.operand st' q'
          (fun hc => hop ⟨ho, hc⟩) h
      · exact by_channel_negated_state nb st q t.operand st' q' h
      · exact by_channel_negated_state nb st q t.operand st' q' h
      · exact by_channels_negated_state nb st q t.operand st' q' h
      · exact by_channels_negated_state nb st q t.operand st' q' h
      · exact by_topic_negated_state nb st q t.operand st' q' h
      · exact by_sender_state nb st q t.operand true st' q' h
      · exact by_near_state nb st q t.operand true st' q' h
      · exact by_id_state nb st q t.operand true st' q' h
      · exact by_search_state nb st q t.operand true st' q' h
      · exact by_dm_negated_state nb st q t.operand st' q' h
      · exact by_dm_negated_state nb st q t.operand st' q' h
      · exact by_dm_including_negated_state nb st q t.operand st' q' h
      · exact by_group_pm_with_negated_state nb st q t.operand st' q' h
      · exact by_dm_negated_state nb st q t.operand st' q' h
      · exact by_group_pm_with_negated_state nb st q t.operand st' q' h

theorem add_term_negated_no_combo (nb : NarrowBuilder) (st : BuilderState) (q : Query)
    (t : NarrowParameter)
    (hneg : t.negated = true)
    (hop : ¬(t.operator = "is" ∧
      (t.operand = Operand.str "dm" ∨ t.operand = Operand.str "private"))) :
    add_term nb st q t ≠ .error comboErr := by
  intro h
  unfold add_term at h
  rw [hneg] at h
  revert h
  cases hmap : by_method_map t.operator with
  | none =>
      intro h
      injection h with h1
      exact absurd h1 (by decide)
  | some m =>
      intro h
      rcases by_method_map_cases t.operator m hmap with
        ⟨ho, hd⟩|⟨ho, hd⟩|⟨ho, hd⟩|⟨ho, hd⟩|⟨ho, hd⟩|⟨ho, hd⟩|⟨ho, hd⟩|⟨ho, hd⟩|⟨ho, hd⟩|
        ⟨ho, hd⟩|⟨ho, hd⟩|⟨ho, hd⟩|⟨ho, hd⟩|⟨ho, hd⟩|⟨ho, hd⟩|⟨ho, hd⟩|⟨ho, hd⟩|⟨ho, hd⟩ <;>
        subst hd
      · exact by_has_no_combo nb st q t.operand true h
      · exact by_in_no_combo nb st q t.operand true h
      · exact by_is_negated_no_combo nb st q t.operand (fun hc => hop ⟨ho, hc⟩) h
      · exact by_channel_negated_no_combo nb st q t.operand h
      · exact by_channel_negated_no_combo nb st q t.operand h
      · exact by_channels_negated_no_combo nb st q t.operand h
      · exact by_channels_negated_no_combo nb st q t.operand h
      · exact by_topic_negated_no_combo nb st q t.operand h
      · exact by_sender_no_combo nb st q t.operand true h
      · exact by_near_no_combo nb st q t.operand true h
      · exact by_id_no_combo nb st q t.operand true h
      · exact by_search_no_combo nb st q t.operand true h
      · exact by_dm_negated_no_combo nb st q t.operand h
      · exact by_dm_negated_no_combo nb st q t.operand h
      · exact by_dm_including_negated_no_combo nb st q t.operand h
      · exact by_group_pm_with_negated_no_combo nb st q t.operand h
      · exact by_dm_negated_no_combo nb st q t.operand h
      · exact by_group_pm_with_negated_no_combo nb st q t.operand h

/-- Claim C3 counterexample: the claim says a negated term never sets a
marker and never triggers the channel/DM mutual-exclusion error, and in
particular that a narrow whose only non-negated scoping term is a dm term
compiles without the combination error even when a negated is:dm is also
present.  In the code, a negated is:dm calls the check with a non-negated
transform and is_channel_narrow=True, so compiling [dm [7], negated is:dm]
raises the mutual-exclusion error. -/
theorem c3_counterexample :
    add_narrow_conditions testNB qTrue
      (some [dmTermC, ⟨"is", Operand.str "dm", true⟩]) = .error comboErr := rfl

/- Full characterization of add_term on a negated is:dm / is:private
   term (for an authenticated non-web-public builder): it raises the
   mutual-exclusion error when the DM marker is set, and otherwise
   succeeds with the channel-narrow marker set. -/
theorem by_is_negated_scoping (nb : NarrowBuilder) (st : BuilderState) (q : Query)
    (op : Operand) (self : UserInfo)
    (hop : op = Operand.str "dm" ∨ op = Operand.str "private")
    (hw : nb.is_web_public_query = false) (hu : nb.user_profile = some self) :
    add_term nb st q ⟨"is", op, true⟩ =
      (if st.is_dm_narrow then .error comboErr
       else .ok (⟨true, false⟩, queryWhere q (maybe_negate true
         (fun r => (r.flags &&& nb.env.masks.is_private) != 0)))) := by
  have hresolved : ¬(op = Operand.str "resolved") := by
    rcases hop with hx | hx <;> subst hx <;> decide
  unfold add_term
  rw [show by_method_map "is" = some by_is from rfl]
  show by_is nb st q op true = _
  unfold by_is
  rw [if_neg hresolved, hw]
  rw [if_neg (by simp : ¬(false = true)), hu]
  show (if op = Operand.str "dm" ∨ op = Operand.str "private" then _ else _) = _
  rw [if_pos hop]
  rw [if_pos rfl]
  cases hd : st.is_dm_narrow with
  | true =>
      rw [check_not_both_conflict_dm st hd]
      rfl
  | false =>
      have hcheck : check_not_both_channel_and_dm_narrow st false false true =
          .ok ⟨true, false⟩ := by
        unfold check_not_both_channel_and_dm_narrow
        rw [if_neg (by simp : ¬(false = true))]
        rw [if_neg (by simp [hd])]
        simp [hd]
      rw [hcheck]
      rfl

/-- Claim C3 as amended: compiling a negated term whose operator/operand
is not is:dm or is:private leaves both markers unchanged and can never
raise the mutual-exclusion error; a negated is:dm or is:private, however,
invokes the check with a non-negated transform and is_channel_narrow set,
so it raises the mutual-exclusion error exactly when (iff) the DM marker
is already set, and when the DM marker is clear it succeeds with the
channel-narrow marker set. -/
theorem c3_amended :
    (∀ (nb : NarrowBuilder) (st : BuilderState) (q : Query) (t : NarrowParameter)
        (st' : BuilderState) (q' : Query), t.negated = true →
        ¬(t.operator = "is" ∧
          (t.operand = Operand.str "dm" ∨ t.operand = Operand.str "private")) →
        add_term nb st q t = .ok (st', q') → st' = st) ∧
    (∀ (nb : NarrowBuilder) (st : BuilderState) (q : Query) (t : NarrowParameter),
        t.negated = true →
        ¬(t.operator = "is" ∧
          (t.operand = Operand.str "dm" ∨ t.operand = Operand.str "private")) →
        add_term nb st q t ≠ .error comboErr) ∧
    (∀ (nb : NarrowBuilder) (st : BuilderState) (q : Query) (self : UserInfo)
        (op : Operand),
        (op = Operand.str "dm" ∨ op = Operand.str "private") →
        nb.is_web_public_query = false → nb.user_profile = some self →
        (add_term nb st q ⟨"is", op, true⟩ = .error comboErr ↔
          st.is_dm_narrow = true) ∧
        (st.is_dm_narrow = false →
          add_term nb st q ⟨"is", op, true⟩ =
            .ok (⟨true, false⟩, queryWhere q (maybe_negate true
              (fun r => (r.flags &&& nb.env.masks.is_private) != 0))))) := by
  refine ⟨fun nb st q t st' q' hneg hop h =>
      add_term_negated_preserves nb st q t st' q' hneg hop h,
    fun nb st q t hneg hop => add_term_negated_no_combo nb st q t hneg hop, ?_⟩
  intro nb st q self op hop hw hu
  have hmain := by_is_negated_scoping nb st q op self hop hw hu
  refine ⟨⟨?_, ?_⟩, ?_⟩
  · intro herr
    cases hd : st.is_dm_narrow with
    | true => rfl
    | false =>
        rw [hmain, hd] at herr
        simp at herr
  · intro hd
    rw [hmain, hd]
    rfl
  · intro hd
    rw [hmain, hd]
    rfl

/-- Claim C3 witness: the is:dm/is:private clause of the amended claim
applied twice — a negated is:dm at a state whose DM marker is set raises
the mutual-exclusion error, and a negated is:private at a state with both
markers clear succeeds with the channel-narrow marker set. -/
theorem c3_witness :
    add_term testNB ⟨false, true⟩ qTrue ⟨"is", Operand.str "dm", true⟩ = .error comboErr ∧
    add_term testNB ⟨false, false⟩ qTrue ⟨"is", Operand.str "private", true⟩ =
      .ok (⟨true, false⟩, queryWhere qTrue (maybe_negate true
        (fun r => (r.flags &&& testNB.env.masks.is_private) != 0))) :=
  ⟨((c3_amended.2.2 testNB ⟨false, true⟩ qTrue testUser (Operand.str "dm")
      (Or.inl rfl) rfl rfl).1).mpr rfl,
   (c3_amended.2.2 testNB ⟨false, false⟩ qTrue testUser (Operand.str "private")
      (Or.inr rfl) rfl rfl).2 rfl⟩

/- ---------------------------------------------------------------------
   History policy (ok_to_include_history).
   --------------------------------------------------------------------- -/

/- Modelled from the spec: the operator alias lists channel_operators and
   channels_operators are imported from zerver.lib.narrow_predicate, which
   is not part of this repository snapshot; the spec's operator table
   gives "stream" as the legacy alias of "channel" and "streams" of
   "channels", matching their use in by_method_map. -/
def channel_operators : List String := ["channel", "stream"]

def channels_operators : List String := ["channels", "streams"]

/- External access checks consumed by ok_to_include_history for the fixed
   requesting user: can_access_stream_history_by_name / _by_id (the id
   variant receives the non-string operand as Python would) and
   user_profile.can_access_public_streams(). -/
structure HistoryEnv where
  canAccessStreamHistoryByName : String → Bool
  canAccessStreamHistoryById : Operand → Bool
  canAccessPublicStreams : Bool

/- The first loop of ok_to_include_history: each non-negated channel term
   overwrites include_history with its access check; each non-negated
   channels:public term sets it when the user can access public
   channels. -/
def history_term_fold (henv : HistoryEnv) : List NarrowParameter → Bool → Bool
  | [], acc => acc
  | t :: rest, acc =>
      history_term_fold henv rest
        (if t.operator ∈ channel_operators ∧ t.negated = false then
          (match t.operand with
           | Operand.str s => henv.canAccessStreamHistoryByName s
           | other => henv.canAccessStreamHistoryById other)
         else if t.operator ∈ channels_operators ∧ t.operand = Operand.str "public" ∧
             t.negated = false ∧ henv.canAccessPublicStreams = true then true
         else acc)

/- The second loop: any is-operator term with operand other than
   "resolved" forces include_history back to false. -/
def history_is_fold : List NarrowParameter → Bool → Bool
  | [], acc => acc
  | t :: rest, acc =>
      history_is_fold rest
        (if t.operator = "is" ∧ t.operand ≠ Operand.str "resolved" then false else acc)

/- ok_to_include_history from narrow.py; the asserts on user presence are
   modelled as the none result. -/
def ok_to_include_history (henv : HistoryEnv) (narrow : Option (List NarrowParameter))
    (hasUser : Bool) (is_web_public_query : Bool) : Option Bool :=
  if is_web_public_query then (if hasUser then none else some true)
  else if !hasUser then none
  else
    match narrow with
    | none => some false
    | some terms => some (history_is_fold terms (history_term_fold henv terms false))

/- A term that can legitimately set include_history to true. -/
def historyGrantingTerm (henv : HistoryEnv) (t : NarrowParameter) : Prop :=
  (t.operator ∈ channel_operators ∧ t.negated = false ∧
    (match t.operand with
     | Operand.str s => henv.canAccessStreamHistoryByName s
     | other => henv.canAccessStreamHistoryById other) = true) ∨
  (t.operator ∈ channels_operators ∧ t.operand = Operand.str "public" ∧
    t.negated = false ∧ henv.canAccessPublicStreams = true)

theorem history_is_fold_true : ∀ (terms : List NarrowParameter) (acc : Bool),
    history_is_fold terms acc = true → acc = true := by
  intro terms
  induction terms with
  | nil => intro acc h; exact h
  | cons t rest ih =>
      intro acc h
      unfold history_is_fold at h
      have h2 := ih _ h
      revert h2
      split
      · intro h2; cases h2
      · intro h2; exact h2

theorem history_is_fold_false : ∀ (terms : List NarrowParameter),
    history_is_fold terms false = false := by
  intro terms
  induction terms with
  | nil => rfl
  | cons t rest ih =>
      unfold history_is_fold
      split
      · exact ih
      · exact ih

theorem history_is_fold_bad : ∀ (terms : List NarrowParameter) (acc : Bool)
    (t : NarrowParameter), t ∈ terms → t.operator = "is" →
    t.operand ≠ Operand.str "resolved" → history_is_fold terms acc = false := by
  intro terms
  induction terms with
  | nil => intro acc t ht; cases ht
  | cons t0 rest ih =>
      intro acc t ht hop hres
      unfold history_is_fold
      rcases List.mem_cons.mp ht with heq | hmem
      · subst heq
        rw [if_pos ⟨hop, hres⟩]
        exact history_is_fold_false rest
      · split
        · exact ih _ t hmem hop hres
        · exact ih _ t hmem hop hres

theorem history_term_fold_true (henv : HistoryEnv) :
    ∀ (terms : List NarrowParameter) (acc : Bool),
    history_term_fold henv terms acc = true →
    (∃ t ∈ terms, historyGrantingTerm henv t) ∨ acc = true := by
  intro terms
  induction terms with
  | nil => intro acc h; exact Or.inr h
  | cons t rest ih =>
      intro acc h
      unfold history_term_fold at h
      rcases ih _ h with hex | hacc
      · obtain ⟨t0, hmem, hg⟩ := hex
        exact Or.inl ⟨t0, List.mem_cons_of_mem t hmem, hg⟩
      · revert hacc
        split
        · rename_i hcond
          intro hacc
          exact Or.inl ⟨t, List.mem_cons_self t rest,
            Or.inl ⟨hcond.1, hcond.2, hacc⟩⟩
        · split
          · rename_i hcond
            intro _
            exact Or.inl ⟨t, List.mem_cons_self t rest, Or.inr hcond⟩
          · intro hacc
            exact Or.inr hacc

/-- Claim C4: for every authenticated non-web-public request,
ok_to_include_history returns true only if the narrow contains a
non-negated channel term whose target channel grants history access to
the user, or a non-negated channels:public term when the user may access
public channels; and for every narrow containing an is-operator term with
operand other than "resolved", it returns false regardless of the other
terms. -/
theorem c4_ok_to_include_history :
    (∀ (henv : HistoryEnv) (terms : List NarrowParameter),
        ok_to_include_history henv (some terms) true false = some true →
        ∃ t ∈ terms, historyGrantingTerm henv t) ∧
    (∀ (henv : HistoryEnv) (terms : List NarrowParameter) (t : NarrowParameter),
        t ∈ terms → t.operator = "is" → t.operand ≠ Operand.str "resolved" →
        ok_to_include_history henv (some terms) true false = some false) := by
  constructor
  · intro henv terms h
    have h2 : history_is_fold terms (history_term_fold henv terms false) = true := by
      have h3 : some (history_is_fold terms (history_term_fold henv terms false)) =
          (some true : Option Bool) := h
      injection h3
    have h4 := history_is_fold_true terms _ h2
    rcases history_term_fold_true henv terms false h4 with hex | hfalse
    · exact hex
    · cases hfalse
  · intro henv terms t hmem hop hres
    show some (history_is_fold terms (history_term_fold henv terms false)) = some false
    rw [history_is_fold_bad terms _ t hmem hop hres]

def testHEnv : HistoryEnv := ⟨fun _ => true, fun _ => false, true⟩

/-- Claim C4 witness: the is-term clause applied to a narrow containing
is:starred, which forces the result to false. -/
theorem c4_witness :
    ok_to_include_history testHEnv (some [⟨"is", Operand.str "starred", false⟩]) true false =
      some false :=
  c4_ok_to_include_history.2 testHEnv [⟨"is", Operand.str "starred", false⟩]
    ⟨"is", Operand.str "starred", false⟩ (by decide) rfl (by decide)

/- ---------------------------------------------------------------------
   Permalink resolution (the with operator).
   --------------------------------------------------------------------- -/

inductive RecipientType where
  | stream
  | personal
  | directMessageGroup
deriving DecidableEq, Repr

/- The fields of the resolved target message that the rewrite reads:
   recipient type, recipient type_id (channel id for channel messages,
   the receiving user id for 1:1), topic_name(), and the direct message
   group's user ids. -/
structure MessageInfo where
  recipientType : RecipientType
  recipientTypeId : Int
  topicName : String
  groupUserIds : List Int
deriving DecidableEq, Repr

/- Message access collaborators of the with-operator rewrite:
   access_message for authenticated users, access_web_public_message
   otherwise; none models the raised access error. -/
structure WithEnv where
  isAuthenticated : Bool
  accessMessage : Int → Option MessageInfo
  accessWebPublicMessage : Int → Option MessageInfo

/- Python int(operand) for a with operand (str or int after validation);
   a ValueError becomes none. -/
def operandToInt : Operand → Option Int
  | .int n => some n
  | .str s => pyInt s
  | .intList _ => none

/- can_narrow_define_conversation from narrow.py, via its loop with the
   two accumulated flags and early returns. -/
def can_narrow_define_conversation_go : List NarrowParameter → Bool → Bool → Bool
  | [], _, _ => false
  | t :: rest, hasC, hasT =>
      if t.operator ∈ (["dm", "pm-with"] : List String) then true
      else
        if (hasC || decide (t.operator ∈ (["stream", "channel"] : List String))) &&
            (hasT || decide (t.operator = "topic")) then true
        else can_narrow_define_conversation_go rest
          (hasC || decide (t.operator ∈ (["stream", "channel"] : List String)))
          (hasT || decide (t.operator = "topic"))

def can_narrow_define_conversation (terms : List NarrowParameter) : Bool :=
  can_narrow_define_conversation_go terms false false

/- The operator list whose terms the accessible-message branch strips
   from the remaining narrow. -/
def conversationRemovedOperators : List String :=
  ["stream", "channel", "topic", "dm", "pm-with"]

/- narrow.remove(with_term): drop the first term whose operator is
   "with" (with exactly one with term present, the first term equal to it
   is that term). -/
def removeFirstWith : List NarrowParameter → List NarrowParameter
  | [] => []
  | t :: rest => if t.operator = "with" then rest else t :: removeFirstWith rest

/- The canonical conversation terms prepended for the resolved message. -/
def canonical_conversation_terms (msg : MessageInfo) : List NarrowParameter :=
  match msg.recipientType with
  | .stream =>
      [⟨"channel", .int msg.recipientTypeId, false⟩, ⟨"topic", .str msg.topicName, false⟩]
  | .personal => [⟨"dm", .intList [msg.recipientTypeId], false⟩]
  | .directMessageGroup => [⟨"dm", .intList msg.groupUserIds, false⟩]

/- The access-dependent tail of the rewrite: fall back to the remaining
   terms when they define a conversation (or fail), else strip the
   conversation operators and prepend the canonical terms. -/
def update_with_access (env : WithEnv) (terms : List NarrowParameter)
    (target : Option MessageInfo) : Except NarrowError (Option (List NarrowParameter)) :=
  match target with
  | none =>
      if can_narrow_define_conversation (removeFirstWith terms) then
        .ok (some (removeFirstWith terms))
      else .error (.badNarrowOperator "Invalid with operator")
  | some msg =>
      .ok (some (canonical_conversation_terms msg ++
        (removeFirstWith terms).filter
          (fun t => !(conversationRemovedOperators.contains t.operator))))

/- The body of the rewrite once the unique with term has been removed
   from the narrow. -/
def update_with_term (env : WithEnv) (terms : List NarrowParameter)
    (wt : NarrowParameter) : Except NarrowError (Option (List NarrowParameter)) :=
  match operandToInt wt.operand with
  | none => .error (.badNarrowOperator "Invalid with operator")
  | some mid =>
      update_with_access env terms
        (if env.isAuthenticated then env.accessMessage mid
         else env.accessWebPublicMessage mid)

def update_with_some (env : WithEnv) (terms : List NarrowParameter) :
    Except NarrowError (Option (List NarrowParameter)) :=
  if (terms.filter (fun t => t.operator == "with")).length > 1 then
    .error (.invalidOperatorCombination "Duplicate with operators.")
  else
    match terms.filter (fun t => t.operator == "with") with
    | [] => .ok (some terms)
    | wt :: _ => update_with_term env terms wt

/- update_narrow_terms_containing_with_operator from narrow.py. -/
def update_narrow_terms_containing_with_operator (env : WithEnv)
    (narrow : Option (List NarrowParameter)) :
    Except NarrowError (Option (List NarrowParameter)) :=
  match narrow with
  | none => .ok none
  | some terms => update_with_some env terms

def withEnvTest : WithEnv :=
  ⟨true, fun mid => if mid = 42 then some ⟨.stream, 5, "T", []⟩ else none, fun _ => none⟩

/-- Claim C10 counterexample: the claim says the accessible-message
rewrite removes all channel/topic/dm-scoped terms, but the filter list is
exactly [stream, channel, topic, dm, pm-with]: a pm_with term (the legacy
underscore alias of dm, handled by by_dm and hence DM-scoped) survives the
rewrite of [with 42, pm_with [7]] even though the target message is
accessible. -/
theorem c10_counterexample :
    update_narrow_terms_containing_with_operator withEnvTest
        (some [⟨"with", .int 42, false⟩, ⟨"pm_with", .intList [7], false⟩]) =
      .ok (some [⟨"channel", .int 5, false⟩, ⟨"topic", .str "T", false⟩,
        ⟨"pm_with", .intList [7], false⟩]) ∧
    "pm_with" ∈ dmScopedOps := ⟨rfl, by decide⟩

/-- Claim C10 as amended: for a narrow with exactly one with term whose
operand parses as a message id — if the referenced message is accessible,
the rewrite removes the with term, strips exactly the terms with
operators stream/channel/topic/dm/pm-with (other DM- or channel-scoped
operators such as pm_with, dm-including, group-pm-with and channels are
kept), and prepends the canonical conversation terms ({channel, topic}
for a channel message, {dm, participant ids} otherwise); if the message
is inaccessible or nonexistent, the rewrite drops the with term and keeps
the remaining terms exactly when they already define a conversation (a dm
or pm-with term, or a channel/stream term plus a topic term), and
otherwise fails with BadNarrowOperator. -/
theorem c10_amended (env : WithEnv) (terms : List NarrowParameter)
    (wt : NarrowParameter) (mid : Int)
    (hw : terms.filter (fun t => t.operator == "with") = [wt])
    (hmid : operandToInt wt.operand = some mid) :
    (∀ msg, (if env.isAuthenticated then env.accessMessage mid
        else env.accessWebPublicMessage mid) = some msg →
      update_narrow_terms_containing_with_operator env (some terms) =
        .ok (some (canonical_conversation_terms msg ++
          (removeFirstWith terms).filter
            (fun t => !(conversationRemovedOperators.contains t.operator))))) ∧
    ((if env.isAuthenticated then env.accessMessage mid
        else env.accessWebPublicMessage mid) = none →
      (can_narrow_define_conversation (removeFirstWith terms) = true →
        update_narrow_terms_containing_with_operator env (some terms) =
          .ok (some (removeFirstWith terms))) ∧
      (can_narrow_define_conversation (removeFirstWith terms) = false →
        update_narrow_terms_containing_with_operator env (some terms) =
          .error (.badNarrowOperator "Invalid with operator"))) := by
  have hmain : update_narrow_terms_containing_with_operator env (some terms) =
      update_with_term env terms wt := by
    show update_with_some env terms = update_with_term env terms wt
    unfold update_with_some
    rw [hw]
    rw [if_neg (by simp : ¬(([wt] : List NarrowParameter).length > 1))]
  have h2 : update_with_term env terms wt = update_with_access env terms
      (if env.isAuthenticated then env.accessMessage mid
       else env.accessWebPublicMessage mid) := by
    unfold update_with_term
    rw [hmid]
  constructor
  · intro msg hacc
    rw [hmain, h2, hacc]
    rfl
  · intro hacc
    constructor
    · intro hcan
      rw [hmain, h2, hacc]
      unfold update_with_access
      rw [if_pos hcan]
    · intro hcan
      rw [hmain, h2, hacc]
      unfold update_with_access
      rw [if_neg (by rw [hcan]; exact Bool.false_ne_true)]

/-- Claim C10 witness: the accessible-message clause of the amended claim
applied in the test environment, where message 42 is a channel message in
topic "T" of the channel with id 5. -/
theorem c10_witness :
    update_narrow_terms_containing_with_operator withEnvTest
        (some [⟨"with", .int 42, false⟩, ⟨"dm", .intList [9], false⟩]) =
      .ok (some (canonical_conversation_terms ⟨.stream, 5, "T", []⟩ ++
        (removeFirstWith [⟨"with", .int 42, false⟩, ⟨"dm", .intList [9], false⟩]).filter
          (fun t => !(conversationRemovedOperators.contains t.operator)))) :=
  (c10_amended withEnvTest [⟨"with", .int 42, false⟩, ⟨"dm", .intList [9], false⟩]
    ⟨"with", .int 42, false⟩ 42 (by decide) rfl).1 ⟨.stream, 5, "T", []⟩ rfl
